import Mathlib

/-!
Array creation entry points of the runtime (arraynative.cpp)

A shallow embedding of `memmoveGCRefs`, `CheckElementType`, `Array_CreateInstance`
and `Array_CreateInstanceMDArray`.

* A `TypeHandle` is represented by the answers of the queries the file asks of it.
* The type loader, the allocators, `CorTypeInfo::IsPrimitiveType` and the contents of
  fresh stack memory are collaborators declared elsewhere; they are the fields of
  `Runtime`, and every theorem holds for all of them.
* Calls to collaborators and the scope of every `GCX_COOP` holder are recorded, in
  program order, in the trace of the calling `Thread`.
* `_ASSERTE` is compiled only into checked builds: `Runtime.debugBuild` says which
  build runs. The `CONTRACTL` blocks are declarative and are not executed here.
-/

namespace ArrayNative

/-! ## Data model -/

/-- Element type tags of corhdr.h, as far as signatures use them. -/
inductive CorElementType
  | ELEMENT_TYPE_END
  | ELEMENT_TYPE_VOID
  | ELEMENT_TYPE_BOOLEAN
  | ELEMENT_TYPE_CHAR
  | ELEMENT_TYPE_I1
  | ELEMENT_TYPE_U1
  | ELEMENT_TYPE_I2
  | ELEMENT_TYPE_U2
  | ELEMENT_TYPE_I4
  | ELEMENT_TYPE_U4
  | ELEMENT_TYPE_I8
  | ELEMENT_TYPE_U8
  | ELEMENT_TYPE_R4
  | ELEMENT_TYPE_R8
  | ELEMENT_TYPE_STRING
  | ELEMENT_TYPE_PTR
  | ELEMENT_TYPE_BYREF
  | ELEMENT_TYPE_VALUETYPE
  | ELEMENT_TYPE_CLASS
  | ELEMENT_TYPE_VAR
  | ELEMENT_TYPE_ARRAY
  | ELEMENT_TYPE_GENERICINST
  | ELEMENT_TYPE_TYPEDBYREF
  | ELEMENT_TYPE_I
  | ELEMENT_TYPE_U
  | ELEMENT_TYPE_FNPTR
  | ELEMENT_TYPE_OBJECT
  | ELEMENT_TYPE_SZARRAY
  | ELEMENT_TYPE_MVAR
  deriving DecidableEq, Repr

open CorElementType

/-- A type handle, given by the value of each query this file makes on it.
`IsByRefLike` and `ContainsGenericVariables` are the queries on `AsMethodTable()`,
`ElementContainsGenericVariables` is `GetArrayElementTypeHandle().ContainsGenericVariables()`
and `MethodTableIsArray` is `GetMethodTable()->IsArray()`. -/
structure TypeHandle where
  ptr : Nat
  IsTypeDesc : Bool
  IsByRefLike : Bool
  ContainsGenericVariables : Bool
  GetSignatureCorElementType : CorElementType
  IsByRef : Bool
  IsGenericVariable : Bool
  IsArray : Bool
  GetRank : Nat
  IsMultiDimArray : Bool
  ElementContainsGenericVariables : Bool
  IsFullyLoaded : Bool
  MethodTableIsArray : Bool
  deriving DecidableEq, Repr

/-- Resource keys of the messages thrown by this file. -/
inductive Resource
  | NotSupported_ByRefLikeArray
  | NotSupported_OpenType
  | NotSupported_VoidArray
  | NotSupported_Type
  deriving DecidableEq, Repr

/-- What a call can end with instead of a value: a `kNotSupportedException` thrown by
`COMPlusThrow`, an exception raised inside a collaborator (type load failure, out of
memory), a failed `_ASSERTE`, or an access outside a memory block. -/
inductive Exn
  | kNotSupportedException (msg : Resource)
  | collaborator (code : Nat)
  | assertFailed
  | accessViolation
  deriving DecidableEq, Repr

/-- An object reference. -/
abbrev OBJECTREF := Nat

/-- The arguments written after the element type at a call of
`ClassLoader::LoadArrayTypeThrowing`: none (the declaration's defaults apply), or the
array kind and the rank. -/
inductive LoadArgs
  | defaults
  | explicit (typ : CorElementType) (rank : Int)
  deriving DecidableEq, Repr

/-- The collaborators of this file. -/
structure Runtime where
  debugBuild : Bool
  IsPrimitiveType : CorElementType → Bool
  LoadArrayTypeThrowing : TypeHandle → LoadArgs → Except Exn TypeHandle
  AllocateSzArray : TypeHandle → Int → Except Exn OBJECTREF
  AllocatePrimitiveArray : CorElementType → Int → Except Exn OBJECTREF
  AllocateArrayEx : TypeHandle → List Int → Nat → Except Exn OBJECTREF
  stackJunk : Nat → Int

/-- Modelled from the spec: MAX_RANK, the constant that bounds the rank of an array
and so the size of the stack buffers; its definition is not in this file, the spec
gives 32. -/
def MAX_RANK : Int := 32

/-- What a thread does that its caller can observe. -/
inductive Event
  | enterCoop
  | leaveCoop
  | LoadArrayTypeThrowing (elementType : TypeHandle) (args : LoadArgs)
  | AllocateSzArray (arrayType : TypeHandle) (length : Int)
  | AllocatePrimitiveArray (type : CorElementType) (length : Int)
  | AllocateArrayEx (arrayType : TypeHandle) (pArgs : List Int) (dwNumArgs : Nat)
  deriving DecidableEq, Repr

/-- The calling thread: whether it is in cooperative mode, the events so far, and
how many allocator calls it made while not in cooperative mode. -/
structure Thread where
  coop : Bool
  trace : List Event
  allocsOutsideCoop : Nat
  deriving DecidableEq, Repr

/-- A computation on a thread: it ends with a value or an `Exn`, and a thread state
in either case. -/
def QCall (α : Type) : Type := Thread → Except Exn α × Thread

/-- Sequencing: an `Exn` skips the rest and keeps the thread state reached. -/
def QCall.bind {α β : Type} (m : QCall α) (f : α → QCall β) : QCall β :=
  fun th =>
    match m th with
    | (Except.ok a, th1) => f a th1
    | (Except.error e, th1) => (Except.error e, th1)

instance : Monad QCall where
  pure a := fun th => (Except.ok a, th)
  bind := QCall.bind

/-- The statement `COMPlusThrow(...)`. -/
def COMPlusThrow {α : Type} (e : Exn) : QCall α :=
  fun th => (Except.error e, th)

/-- A computation that does not touch the thread. -/
def liftExcept {α : Type} (r : Except Exn α) : QCall α :=
  fun th => (r, th)

/-- The statement `_ASSERTE(c)`. -/
def ASSERTE (rt : Runtime) (c : Bool) : QCall Unit :=
  if rt.debugBuild && !c then COMPlusThrow Exn.assertFailed else pure ()

/-- The scope of a `GCX_COOP()` holder: the thread is cooperative inside and gets its
former mode back when the scope is left, by its end, by `goto` or by an exception. -/
def GCX_COOP {α : Type} (body : QCall α) : QCall α :=
  fun th =>
    let r := body { th with coop := true, trace := th.trace ++ [Event.enterCoop] }
    (r.1, { r.2 with coop := th.coop, trace := r.2.trace ++ [Event.leaveCoop] })

/-- A call of the type loader. -/
def callLoader (rt : Runtime) (elementType : TypeHandle) (args : LoadArgs) : QCall TypeHandle :=
  fun th =>
    (rt.LoadArrayTypeThrowing elementType args,
      { th with trace := th.trace ++ [Event.LoadArrayTypeThrowing elementType args] })

/-- A call of an allocator, `e` being the call and `r` what it ends with. -/
def callAllocator (e : Event) (r : Except Exn OBJECTREF) : QCall OBJECTREF :=
  fun th =>
    (r, { th with trace := th.trace ++ [e],
                  allocsOutsideCoop := th.allocsOutsideCoop + (if th.coop then 0 else 1) })

/-! ## Machine integers and memory blocks -/

/-- The value of an `int` expression: two's complement, 32 bits. -/
def toINT32 (x : Int) : Int := (x + 2147483648) % 4294967296 - 2147483648

/-- The conversion of an `int` to `DWORD`. -/
def toDWORD (x : Int) : Nat := (x % 4294967296).toNat

/-- The r-value `p[i]` for a block `p` of `INT32`. -/
def readINT32 (p : List Int) (i : Int) : Except Exn Int :=
  if 0 ≤ i then
    match p[i.toNat]? with
    | some v => Except.ok v
    | none => Except.error Exn.accessViolation
  else Except.error Exn.accessViolation

/-- A block obtained from `_alloca`: its cells, and the indices stored to so far. -/
structure Scratch where
  cells : List Int
  writes : List Nat
  deriving DecidableEq, Repr

/-- The expression `(INT32*) _alloca(n * sizeof(INT32))`: `n` cells holding whatever the
stack held. -/
def alloca (rt : Runtime) (n : Nat) : Scratch :=
  { cells := (List.range n).map rt.stackJunk, writes := [] }

/-- The statement `bounds[i] = v`. -/
def storeINT32 (b : Scratch) (i : Int) (v : Int) : Except Exn Scratch :=
  if 0 ≤ i ∧ i.toNat < b.cells.length then
    Except.ok { cells := b.cells.set i.toNat v, writes := b.writes ++ [i.toNat] }
  else Except.error Exn.accessViolation

/-! ## CheckElementType -/

/-- Check we are allowed to create an array with the given element type. -/
def CheckElementType (elementType : TypeHandle) : Except Exn Unit :=
  if !elementType.IsTypeDesc then
    if elementType.IsByRefLike then
      Except.error (Exn.kNotSupportedException Resource.NotSupported_ByRefLikeArray)
    else if elementType.ContainsGenericVariables then
      Except.error (Exn.kNotSupportedException Resource.NotSupported_OpenType)
    else if elementType.GetSignatureCorElementType = ELEMENT_TYPE_VOID then
      Except.error (Exn.kNotSupportedException Resource.NotSupported_VoidArray)
    else Except.ok ()
  else
    if elementType.IsByRef || elementType.IsGenericVariable then
      Except.error (Exn.kNotSupportedException Resource.NotSupported_Type)
    else Except.ok ()

/-! ## Array_CreateInstance -/

/-- The condition `pLowerBounds == NULL || pLowerBounds[0] == 0`. -/
def lowerBoundIsZero (pLowerBounds : Option (List Int)) : Except Exn Bool :=
  match pLowerBounds with
  | none => Except.ok true
  | some lb =>
    match readINT32 lb 0 with
    | Except.ok v => Except.ok (v == 0)
    | Except.error e => Except.error e

/-- One turn of the loop that interleaves lower bounds and lengths. -/
def interleaveStep (pLengths pLowerBounds : List Int) (bounds : Scratch) (i : Nat) :
    Except Exn Scratch := do
  let lb ← readINT32 pLowerBounds i
  let b1 ← storeINT32 bounds (toINT32 (2 * i)) lb
  let len ← readINT32 pLengths i
  storeINT32 b1 (toINT32 (2 * i + 1)) len

/-- One turn of the loop that copies the lengths. -/
def copyStep (pLengths : List Int) (bounds : Scratch) (i : Nat) : Except Exn Scratch := do
  let len ← readINT32 pLengths i
  storeINT32 bounds i len

/-- The block that computes `boundsSize` and fills `bounds`: the size, and the block
after the loop `for (int i = 0; i < rank; i++)`. -/
def encodeBounds (rt : Runtime) (rank : Int) (pLengths : List Int)
    (pLowerBounds : Option (List Int)) : Nat × Except Exn Scratch :=
  match pLowerBounds with
  | some lowerBounds =>
    let boundsSize := toDWORD (toINT32 (2 * rank))
    (boundsSize,
      (List.range rank.toNat).foldlM (interleaveStep pLengths lowerBounds) (alloca rt boundsSize))
  | none =>
    let boundsSize := toDWORD rank
    (boundsSize, (List.range rank.toNat).foldlM (copyStep pLengths) (alloca rt boundsSize))

/-- The entry point `Array_CreateInstance`; what it ends with is what `retArray` holds,
or the exception that leaves the call. -/
def Array_CreateInstance (rt : Runtime) (pTypeHnd : TypeHandle) (rank : Int)
    (pLengths : List Int) (pLowerBounds : Option (List Int)) (createFromArrayType : Bool) :
    QCall OBJECTREF := do
  let mut typeHnd := pTypeHnd
  if createFromArrayType then
    ASSERTE rt (toINT32 typeHnd.GetRank == rank)
    ASSERTE rt typeHnd.IsArray
    if typeHnd.ElementContainsGenericVariables then
      COMPlusThrow (Exn.kNotSupportedException Resource.NotSupported_OpenType)
    if !typeHnd.IsMultiDimArray then
      if rt.debugBuild then
        let z ← liftExcept (lowerBoundIsZero pLowerBounds)
        ASSERTE rt z
      let r ← GCX_COOP (do
        let len ← liftExcept (readINT32 pLengths 0)
        callAllocator (Event.AllocateSzArray typeHnd len) (rt.AllocateSzArray typeHnd len))
      return r
  else
    liftExcept (CheckElementType typeHnd)
    -- Is it ELEMENT_TYPE_SZARRAY array?
    let sz ← if rank == 1 then liftExcept (lowerBoundIsZero pLowerBounds) else pure false
    if sz then
      let corType := typeHnd.GetSignatureCorElementType
      -- Shortcut for common cases
      if rt.IsPrimitiveType corType then
        let r ← GCX_COOP (do
          let len ← liftExcept (readINT32 pLengths 0)
          callAllocator (Event.AllocatePrimitiveArray corType len)
            (rt.AllocatePrimitiveArray corType len))
        return r
      typeHnd ← callLoader rt typeHnd LoadArgs.defaults
      let r ← GCX_COOP (do
        let len ← liftExcept (readINT32 pLengths 0)
        callAllocator (Event.AllocateSzArray typeHnd len) (rt.AllocateSzArray typeHnd len))
      return r
    -- Find the Array class...
    typeHnd ← callLoader rt typeHnd (LoadArgs.explicit ELEMENT_TYPE_ARRAY rank)
  ASSERTE rt (rank ≤ MAX_RANK)
  let (boundsSize, filled) := encodeBounds rt rank pLengths pLowerBounds
  let bounds ← liftExcept filled
  GCX_COOP
    (callAllocator (Event.AllocateArrayEx typeHnd bounds.cells boundsSize)
      (rt.AllocateArrayEx typeHnd bounds.cells boundsSize))

/-- The entry point `Array_CreateInstanceMDArray`. -/
def Array_CreateInstanceMDArray (rt : Runtime) (typeHandle : TypeHandle) (dwNumArgs : Nat)
    (pArgList : List Int) : QCall OBJECTREF :=
  GCX_COOP (do
    let typeHnd := typeHandle
    ASSERTE rt typeHnd.IsFullyLoaded
    ASSERTE rt typeHnd.MethodTableIsArray
    callAllocator (Event.AllocateArrayEx typeHnd pArgList dwNumArgs)
      (rt.AllocateArrayEx typeHnd pArgList dwNumArgs))

/-! ## memmoveGCRefs -/

/-- What `memmoveGCRefs` is compiled against: the build, `sizeof(SIZE_T)`, and
`InlinedMemmoveGCRefsHelper` of arraynative.inl as a function on the state `H` of the
GC heap (memory and card table). -/
structure GCRuntime (H : Type) where
  debugBuild : Bool
  sizeofSIZE_T : Nat
  InlinedMemmoveGCRefsHelper : Nat → Nat → Nat → H → H

/-- The GC heap, and the calls of the helper made on it so far. -/
structure GCHeap (H : Type) where
  state : H
  helperCalls : List (Nat × Nat × Nat)

/-- Modelled from the spec: the macro IS_ALIGNED, which is not in this file; a value
is aligned to the machine word when the word size divides it. -/
def IS_ALIGNED (val alignment : Nat) : Bool := val % alignment == 0

/-- The GC safe variant of the memmove intrinsic. The five `_ASSERTE` lines on `dest`,
`src` and `len` are one check here, `CheckPointer` being the test against null. -/
def memmoveGCRefs {H : Type} (rt : GCRuntime H) (dest src len : Nat) (heap : GCHeap H) :
    Except Exn Unit × GCHeap H :=
  if rt.debugBuild &&
      !(dest != 0 && src != 0 &&
        IS_ALIGNED dest rt.sizeofSIZE_T && IS_ALIGNED src rt.sizeofSIZE_T &&
        IS_ALIGNED len rt.sizeofSIZE_T) then
    (Except.error Exn.assertFailed, heap)
  else if len != 0 && dest != src then
    (Except.ok (),
      { state := rt.InlinedMemmoveGCRefsHelper dest src len heap.state,
        helperCalls := heap.helperCalls ++ [(dest, src, len)] })
  else (Except.ok (), heap)

/-! ## The words of the specification -/

/-- The rejection reasons of the specification. -/
inductive Rejection
  | ByRefLikeElement
  | OpenGenericElement
  | VoidElement
  | InvalidElementKind
  deriving DecidableEq, Repr

/-- The `NotSupported` error that carries a rejection reason. -/
def Rejection.toExn : Rejection → Exn
  | Rejection.ByRefLikeElement => Exn.kNotSupportedException Resource.NotSupported_ByRefLikeArray
  | Rejection.OpenGenericElement => Exn.kNotSupportedException Resource.NotSupported_OpenType
  | Rejection.VoidElement => Exn.kNotSupportedException Resource.NotSupported_VoidArray
  | Rejection.InvalidElementKind => Exn.kNotSupportedException Resource.NotSupported_Type

/-- The validator as the specification words it: the reason to reject, or none. -/
def ElementTypeValidator (t : TypeHandle) : Option Rejection :=
  if t.IsTypeDesc = false then
    if t.IsByRefLike = true then some Rejection.ByRefLikeElement
    else if t.ContainsGenericVariables = true then some Rejection.OpenGenericElement
    else if t.GetSignatureCorElementType = ELEMENT_TYPE_VOID then some Rejection.VoidElement
    else none
  else
    if t.IsByRef = true ∨ t.IsGenericVariable = true then some Rejection.InvalidElementKind
    else none

/-- Acceptance, or the error of the rejection. -/
def verdict (r : Option Rejection) : Except Exn Unit :=
  match r with
  | none => Except.ok ()
  | some why => Except.error why.toExn

/-- The interleaved buffer of the specification:
`[lowerBound_0, length_0, lowerBound_1, length_1, ...]`. -/
def interleave : List Int → List Int → List Int
  | lb :: lowerBounds, len :: lengths => lb :: len :: interleave lowerBounds lengths
  | _, _ => []

/-- The lower bound is absent or zero. -/
def AbsentOrZero (pLowerBounds : Option (List Int)) : Prop :=
  pLowerBounds = none ∨ pLowerBounds = some [0]

/-- The request takes the general path, and `T` is the array type it then allocates:
a from-array-type request does when its descriptor has the general multi-dimensional
representation, no generic variable in its element type and, in a checked build, is
an array of the requested rank; a from-element-type request does when the validator
accepts the element type, the vector shortcut does not apply and the loader finds
`T` for the element type and the rank. -/
def ReachesGeneral (rt : Runtime) (pTypeHnd : TypeHandle) (rank : Int)
    (pLowerBounds : Option (List Int)) (createFromArrayType : Bool) (T : TypeHandle) : Prop :=
  if createFromArrayType = true then
    pTypeHnd.ElementContainsGenericVariables = false ∧ pTypeHnd.IsMultiDimArray = true ∧
      T = pTypeHnd ∧
      (rt.debugBuild = true → toINT32 pTypeHnd.GetRank = rank ∧ pTypeHnd.IsArray = true)
  else
    CheckElementType pTypeHnd = Except.ok () ∧
      ¬ (rank = 1 ∧ AbsentOrZero pLowerBounds) ∧
      rt.LoadArrayTypeThrowing pTypeHnd (LoadArgs.explicit ELEMENT_TYPE_ARRAY rank) = Except.ok T

/-- The events of the general path: the resolution, for a from-element-type request,
then the allocation inside cooperative mode. -/
def generalEvents (pTypeHnd : TypeHandle) (rank : Int) (createFromArrayType : Bool)
    (T : TypeHandle) (buffer : List Int) (bufferLength : Nat) : List Event :=
  (if createFromArrayType = true then []
    else [Event.LoadArrayTypeThrowing pTypeHnd (LoadArgs.explicit ELEMENT_TYPE_ARRAY rank)]) ++
  [Event.enterCoop, Event.AllocateArrayEx T buffer bufferLength, Event.leaveCoop]

/-- The thread `th` after the events `evs`, in the mode it had. -/
def Thread.after (th : Thread) (evs : List Event) : Thread :=
  { th with trace := th.trace ++ evs }

/-- The event is a call of an allocation primitive. -/
def Event.isAllocation : Event → Bool
  | Event.AllocateSzArray _ _ => true
  | Event.AllocatePrimitiveArray _ _ => true
  | Event.AllocateArrayEx _ _ _ => true
  | _ => false

/-- The events a computation adds to the trace of the thread it starts on. -/
def eventsOf {α : Type} (m : QCall α) (th : Thread) : List Event :=
  (m th).2.trace.drop th.trace.length

/-- The calls of allocation primitives that one run of Array_CreateInstance makes, in
program order. -/
def allocationCalls (rt : Runtime) (pTypeHnd : TypeHandle) (rank : Int) (pLengths : List Int)
    (pLowerBounds : Option (List Int)) (createFromArrayType : Bool) (th : Thread) : List Event :=
  (eventsOf (Array_CreateInstance rt pTypeHnd rank pLengths pLowerBounds createFromArrayType)
    th).filter Event.isAllocation

/-- The event is a call of the type loader. -/
def Event.isResolution : Event → Bool
  | Event.LoadArrayTypeThrowing _ _ => true
  | _ => false

/-- The array type descriptor handed to an allocator, for the allocators that take
one. -/
def Event.arrayType : Event → Option TypeHandle
  | Event.AllocateSzArray t _ => some t
  | Event.AllocateArrayEx t _ _ => some t
  | _ => none

/-- Reading events from a point where `depth` GCX_COOP holders are open: the number
of holders open after the last event, or none when an allocator is called, or a
holder is closed, while no holder is open. -/
def scanCoop : Nat → List Event → Option Nat
  | depth, [] => some depth
  | depth, Event.enterCoop :: rest => scanCoop (depth + 1) rest
  | depth, Event.leaveCoop :: rest => if depth = 0 then none else scanCoop (depth - 1) rest
  | depth, Event.LoadArrayTypeThrowing _ _ :: rest => scanCoop depth rest
  | depth, Event.AllocateSzArray _ _ :: rest => if depth = 0 then none else scanCoop depth rest
  | depth, Event.AllocatePrimitiveArray _ _ :: rest =>
    if depth = 0 then none else scanCoop depth rest
  | depth, Event.AllocateArrayEx _ _ _ :: rest =>
    if depth = 0 then none else scanCoop depth rest

/-- The events of one GCX_COOP scope of the entry points: none (the scope is not
reached), or the scope entered and left around at most one allocator call, which
satisfies `P`. -/
def GuardedBody (P : Event → Prop) (body : List Event) : Prop :=
  body = [] ∨ body = [Event.enterCoop, Event.leaveCoop] ∨
    ∃ e, e.isAllocation = true ∧ P e ∧ body = [Event.enterCoop, e, Event.leaveCoop]

/-- The calls of the type loader that one run of Array_CreateInstance makes, in program
order. -/
def resolutions (rt : Runtime) (pTypeHnd : TypeHandle) (rank : Int) (pLengths : List Int)
    (pLowerBounds : Option (List Int)) (createFromArrayType : Bool) (th : Thread) : List Event :=
  (eventsOf (Array_CreateInstance rt pTypeHnd rank pLengths pLowerBounds createFromArrayType)
    th).filter Event.isResolution

/-! ## Concrete collaborators and handles, for evaluating the entry points -/

/-- Modelled from the spec: `CorTypeInfo::IsPrimitiveType`, a table that is not in
this file; the spec calls primitive the numeric, boolean and character kinds. -/
def primitiveKinds (t : CorElementType) : Bool :=
  match t with
  | ELEMENT_TYPE_BOOLEAN | ELEMENT_TYPE_CHAR
  | ELEMENT_TYPE_I1 | ELEMENT_TYPE_U1 | ELEMENT_TYPE_I2 | ELEMENT_TYPE_U2
  | ELEMENT_TYPE_I4 | ELEMENT_TYPE_U4 | ELEMENT_TYPE_I8 | ELEMENT_TYPE_U8
  | ELEMENT_TYPE_R4 | ELEMENT_TYPE_R8 | ELEMENT_TYPE_I | ELEMENT_TYPE_U => true
  | _ => false

/-- A loaded class or value type with the given tag. -/
def plainType (ptr : Nat) (tag : CorElementType) : TypeHandle :=
  { ptr := ptr, IsTypeDesc := false, IsByRefLike := false, ContainsGenericVariables := false,
    GetSignatureCorElementType := tag, IsByRef := false, IsGenericVariable := false,
    IsArray := false, GetRank := 0, IsMultiDimArray := false,
    ElementContainsGenericVariables := false, IsFullyLoaded := true,
    MethodTableIsArray := false }

/-- A loaded array type of the given rank; `multiDim` tells the general representation
from the vector. -/
def arrayType (ptr : Nat) (rank : Nat) (multiDim : Bool) : TypeHandle :=
  { ptr := ptr, IsTypeDesc := false, IsByRefLike := false, ContainsGenericVariables := false,
    GetSignatureCorElementType := if multiDim then ELEMENT_TYPE_ARRAY else ELEMENT_TYPE_SZARRAY,
    IsByRef := false, IsGenericVariable := false,
    IsArray := true, GetRank := rank, IsMultiDimArray := multiDim,
    ElementContainsGenericVariables := false, IsFullyLoaded := true,
    MethodTableIsArray := true }

/-- A loader that finds every array type, allocators that hand out the sum of the
requested sizes as the object, and a stack full of -1; a checked build. -/
def sampleRuntime : Runtime :=
  { debugBuild := true,
    IsPrimitiveType := primitiveKinds,
    LoadArrayTypeThrowing := fun elementType args =>
      match args with
      | LoadArgs.defaults => Except.ok (arrayType (elementType.ptr + 1000) 1 false)
      | LoadArgs.explicit _ rank => Except.ok (arrayType (elementType.ptr + 2000) rank.toNat true),
    AllocateSzArray := fun _ length => Except.ok length.toNat,
    AllocatePrimitiveArray := fun _ length => Except.ok length.toNat,
    AllocateArrayEx := fun _ pArgs _ => Except.ok pArgs.sum.toNat,
    stackJunk := fun _ => -1 }

/-- A thread in preemptive mode that has done nothing yet. -/
def freshThread : Thread := { coop := false, trace := [], allocsOutsideCoop := 0 }

/-- A vector type whose element type still has a generic variable in it. -/
def openVectorType : TypeHandle :=
  { arrayType 1 1 false with ElementContainsGenericVariables := true }

/-- A GC heap observed only through the number of bytes moved on it, on a checked
build for a machine with words of 8 bytes. -/
def sampleGCRuntime : GCRuntime Nat :=
  { debugBuild := true,
    sizeofSIZE_T := 8,
    InlinedMemmoveGCRefsHelper := fun _ _ len moved => moved + len }

/-- A GC heap on which nothing has moved yet. -/
def freshHeap : GCHeap Nat := { state := 0, helperCalls := [] }

/-! ## Lemmas on the embedding -/

theorem QCall.rewrap {α : Type} (r : Except Exn α × Thread) :
    (match r with
      | (Except.ok a, th1) => ((Except.ok a, th1) : Except Exn α × Thread)
      | (Except.error e, th1) => (Except.error e, th1)) = r := by
  rcases r with ⟨_ | _, _⟩ <;> rfl

theorem lowerBoundIsZero_of_absentOrZero {pLowerBounds : Option (List Int)}
    (h : AbsentOrZero pLowerBounds) : lowerBoundIsZero pLowerBounds = Except.ok true := by
  rcases h with h | h <;> subst h <;> rfl

theorem CheckElementType_eq_verdict (t : TypeHandle) :
    CheckElementType t = verdict (ElementTypeValidator t) := by
  unfold CheckElementType ElementTypeValidator verdict
  cases h1 : t.IsTypeDesc <;> cases h2 : t.IsByRefLike <;>
    cases h3 : t.ContainsGenericVariables <;> cases h4 : t.IsByRef <;>
    cases h5 : t.IsGenericVariable <;>
    by_cases h6 : t.GetSignatureCorElementType = ELEMENT_TYPE_VOID <;>
    simp [h6, Rejection.toExn]

theorem CheckElementType_of_accepted {t : TypeHandle} (h : ElementTypeValidator t = none) :
    CheckElementType t = Except.ok () := by
  rw [CheckElementType_eq_verdict, h]; rfl

theorem CheckElementType_of_rejected {t : TypeHandle} {why : Rejection}
    (h : ElementTypeValidator t = some why) :
    CheckElementType t = Except.error why.toExn := by
  rw [CheckElementType_eq_verdict, h]; rfl

theorem Array_CreateInstance_vector_of_array (rt : Runtime) (pTypeHnd : TypeHandle)
    (rank : Int) (len0 : Int) (rest : List Int) (pLowerBounds : Option (List Int))
    (th : Thread)
    (hvec : pTypeHnd.IsMultiDimArray = false)
    (hclosed : pTypeHnd.ElementContainsGenericVariables = false)
    (hdbg : rt.debugBuild = true →
      toINT32 pTypeHnd.GetRank = rank ∧ pTypeHnd.IsArray = true ∧
        lowerBoundIsZero pLowerBounds = Except.ok true) :
    Array_CreateInstance rt pTypeHnd rank (len0 :: rest) pLowerBounds true th =
      (rt.AllocateSzArray pTypeHnd len0,
        th.after [Event.enterCoop, Event.AllocateSzArray pTypeHnd len0, Event.leaveCoop]) := by
  cases hd : rt.debugBuild with
  | false =>
    simp [Array_CreateInstance, bind, QCall.bind, liftExcept, pure, ASSERTE, GCX_COOP,
      readINT32, callAllocator, Thread.after, QCall.rewrap, hvec, hclosed, hd]
  | true =>
    obtain ⟨hrank, harr, hz⟩ := hdbg hd
    simp [Array_CreateInstance, bind, QCall.bind, liftExcept, pure, ASSERTE, GCX_COOP,
      readINT32, callAllocator, Thread.after, QCall.rewrap, hvec, harr, hrank, hclosed, hz, hd]

theorem Array_CreateInstance_open_element_of_array (rt : Runtime) (pTypeHnd : TypeHandle)
    (rank : Int) (pLengths : List Int) (pLowerBounds : Option (List Int)) (th : Thread)
    (hopen : pTypeHnd.ElementContainsGenericVariables = true)
    (hdbg : rt.debugBuild = true →
      toINT32 pTypeHnd.GetRank = rank ∧ pTypeHnd.IsArray = true) :
    Array_CreateInstance rt pTypeHnd rank pLengths pLowerBounds true th =
      (Except.error (Exn.kNotSupportedException Resource.NotSupported_OpenType), th) := by
  cases hd : rt.debugBuild with
  | false =>
    simp [Array_CreateInstance, bind, QCall.bind, pure, ASSERTE, COMPlusThrow, hopen, hd]
  | true =>
    obtain ⟨hrank, harr⟩ := hdbg hd
    simp [Array_CreateInstance, bind, QCall.bind, pure, ASSERTE, COMPlusThrow, hopen, hd,
      hrank, harr]

theorem Array_CreateInstance_vector_of_primitive (rt : Runtime) (pTypeHnd : TypeHandle)
    (len0 : Int) (rest : List Int) (pLowerBounds : Option (List Int)) (th : Thread)
    (h : CheckElementType pTypeHnd = Except.ok ())
    (hprim : rt.IsPrimitiveType pTypeHnd.GetSignatureCorElementType = true)
    (hz : lowerBoundIsZero pLowerBounds = Except.ok true) :
    Array_CreateInstance rt pTypeHnd 1 (len0 :: rest) pLowerBounds false th =
      (rt.AllocatePrimitiveArray pTypeHnd.GetSignatureCorElementType len0,
        th.after
          [Event.enterCoop,
           Event.AllocatePrimitiveArray pTypeHnd.GetSignatureCorElementType len0,
           Event.leaveCoop]) := by
  simp [Array_CreateInstance, bind, QCall.bind, liftExcept, pure, GCX_COOP,
    readINT32, callAllocator, Thread.after, QCall.rewrap, h, hprim, hz]

theorem Array_CreateInstance_vector_of_loaded (rt : Runtime) (pTypeHnd : TypeHandle)
    (len0 : Int) (rest : List Int) (pLowerBounds : Option (List Int)) (th : Thread)
    (h : CheckElementType pTypeHnd = Except.ok ())
    (hprim : rt.IsPrimitiveType pTypeHnd.GetSignatureCorElementType = false)
    (hz : lowerBoundIsZero pLowerBounds = Except.ok true) :
    Array_CreateInstance rt pTypeHnd 1 (len0 :: rest) pLowerBounds false th =
      match rt.LoadArrayTypeThrowing pTypeHnd LoadArgs.defaults with
      | Except.ok T =>
        (rt.AllocateSzArray T len0,
          th.after
            [Event.LoadArrayTypeThrowing pTypeHnd LoadArgs.defaults,
             Event.enterCoop, Event.AllocateSzArray T len0, Event.leaveCoop])
      | Except.error e =>
        (Except.error e, th.after [Event.LoadArrayTypeThrowing pTypeHnd LoadArgs.defaults]) := by
  cases hl : rt.LoadArrayTypeThrowing pTypeHnd LoadArgs.defaults <;>
    simp [Array_CreateInstance, bind, QCall.bind, liftExcept, pure, GCX_COOP, callLoader,
      readINT32, callAllocator, Thread.after, QCall.rewrap, h, hprim, hz, hl]

theorem eventsOf_of_run {α : Type} (m : QCall α) (th : Thread) (r : Except Exn α)
    (evs : List Event) (h : m th = (r, th.after evs)) : eventsOf m th = evs := by
  simp [eventsOf, h, Thread.after]

/-! ## CheckElementType: the claim -/

/-- Claim C1. For every type handle `CheckElementType` returns what the validator of
the specification says: for a concrete form the first of ByRefLikeElement (by-ref-like),
OpenGenericElement (generic variables), VoidElement (void) that applies, else
acceptance; for a TypeDesc form InvalidElementKind when it is a by-reference type or a
generic parameter, else acceptance. A concrete type that is by-ref-like and open
generic is rejected as ByRefLikeElement, and for a TypeDesc form the result is the
same whatever the by-ref-like, open-generic and signature-type queries answer. -/
theorem CheckElementType_refines_validator (t : TypeHandle) (a b : Bool) (c : CorElementType) :
    CheckElementType t = verdict (ElementTypeValidator t) ∧
    CheckElementType
        { t with IsTypeDesc := false, IsByRefLike := true, ContainsGenericVariables := true } =
      Except.error Rejection.ByRefLikeElement.toExn ∧
    CheckElementType
        { t with IsTypeDesc := true, IsByRefLike := a, ContainsGenericVariables := b,
                 GetSignatureCorElementType := c } =
      CheckElementType { t with IsTypeDesc := true } := by
  refine ⟨CheckElementType_eq_verdict t, ?_, ?_⟩
  · simp [CheckElementType, Rejection.toExn]
  · simp [CheckElementType]

/-! ## Array_CreateInstance: rejection and the vector paths -/

/-- Claim C2. A from-element-type request, of any rank, lengths and lower bounds,
whose element type the validator rejects for the reason `why` ends with the
`NotSupported` error of that reason and leaves the thread as it was: no resolution of
an array type, no call of an allocation primitive, no entry into cooperative mode. -/
theorem Array_CreateInstance_rejected (rt : Runtime) (pTypeHnd : TypeHandle) (rank : Int)
    (pLengths : List Int) (pLowerBounds : Option (List Int)) (th : Thread) (why : Rejection)
    (hrej : ElementTypeValidator pTypeHnd = some why) :
    Array_CreateInstance rt pTypeHnd rank pLengths pLowerBounds false th =
      (Except.error why.toExn, th) := by
  have h := CheckElementType_of_rejected hrej
  simp [Array_CreateInstance, bind, QCall.bind, liftExcept, h]

theorem Array_CreateInstance_rejected_witness :
    Array_CreateInstance sampleRuntime (plainType 1 ELEMENT_TYPE_VOID) 2 [2, 2] (some [1, 1])
        false freshThread =
      (Except.error (Exn.kNotSupportedException Resource.NotSupported_VoidArray), freshThread) :=
  Array_CreateInstance_rejected sampleRuntime (plainType 1 ELEMENT_TYPE_VOID) 2 [2, 2]
    (some [1, 1]) freshThread Rejection.VoidElement (by decide)

/-- Claim C3, as stated, fails: a from-array-type request for a vector type of the
requested rank, without lower bounds, whose element type contains a generic variable
ends with NotSupported_OpenType, and neither enters cooperative mode nor allocates. -/
theorem Array_CreateInstance_fromArrayType_open_element :
    openVectorType.IsMultiDimArray = false ∧ openVectorType.IsArray = true ∧
    toINT32 openVectorType.GetRank = 1 ∧ AbsentOrZero none ∧
    Array_CreateInstance sampleRuntime openVectorType 1 [3] none true freshThread =
      (Except.error (Exn.kNotSupportedException Resource.NotSupported_OpenType), freshThread) := by
  refine ⟨rfl, rfl, by decide, Or.inl rfl, rfl⟩

/-- Claim C3, amended. For a from-array-type request whose array descriptor is not the
general multi-dimensional representation and is an array of the requested rank, with a
lower bound that is absent or zero: when the element type of the descriptor has no
generic variable, the request enters cooperative mode, calls AllocateSzArray with the
descriptor itself and `lengths[0]`, leaves cooperative mode and ends with what that
call ends with, the loader is not called and nothing is asked about by-ref-like or
void types; when the element type has a generic variable, the request ends with
NotSupported_OpenType and leaves the thread as it was, so that cooperative mode is not
entered and no allocator is called. -/
theorem Array_CreateInstance_fromArrayType_vector (rt : Runtime) (pTypeHnd : TypeHandle)
    (rank : Int) (len0 : Int) (rest : List Int) (pLowerBounds : Option (List Int))
    (th : Thread)
    (hvec : pTypeHnd.IsMultiDimArray = false) (harr : pTypeHnd.IsArray = true)
    (hrank : toINT32 pTypeHnd.GetRank = rank)
    (hlb : AbsentOrZero pLowerBounds) :
    Array_CreateInstance rt pTypeHnd rank (len0 :: rest) pLowerBounds true th =
      if pTypeHnd.ElementContainsGenericVariables = true then
        (Except.error (Exn.kNotSupportedException Resource.NotSupported_OpenType), th)
      else
        (rt.AllocateSzArray pTypeHnd len0,
          th.after [Event.enterCoop, Event.AllocateSzArray pTypeHnd len0, Event.leaveCoop]) := by
  cases hopen : pTypeHnd.ElementContainsGenericVariables with
  | true =>
    rw [if_pos rfl]
    exact Array_CreateInstance_open_element_of_array rt pTypeHnd rank (len0 :: rest)
      pLowerBounds th hopen (fun _ => ⟨hrank, harr⟩)
  | false =>
    rw [if_neg Bool.false_ne_true]
    exact Array_CreateInstance_vector_of_array rt pTypeHnd rank len0 rest pLowerBounds th hvec
      hopen (fun _ => ⟨hrank, harr, lowerBoundIsZero_of_absentOrZero hlb⟩)

theorem Array_CreateInstance_fromArrayType_vector_witness :
    Array_CreateInstance sampleRuntime (arrayType 1 1 false) 1 [3] (some [0]) true freshThread =
      (Except.ok 3,
        freshThread.after
          [Event.enterCoop, Event.AllocateSzArray (arrayType 1 1 false) 3, Event.leaveCoop]) ∧
    Array_CreateInstance sampleRuntime openVectorType 1 [3] (some [0]) true freshThread =
      (Except.error (Exn.kNotSupportedException Resource.NotSupported_OpenType), freshThread) :=
  ⟨Array_CreateInstance_fromArrayType_vector sampleRuntime (arrayType 1 1 false) 1 3 []
      (some [0]) freshThread rfl rfl (by decide) (Or.inr rfl),
   Array_CreateInstance_fromArrayType_vector sampleRuntime openVectorType 1 3 []
      (some [0]) freshThread rfl rfl (by decide) (Or.inr rfl)⟩

/-- Claim C4. A from-element-type request of rank 1, with a lower bound that is absent
or `[0]`, for an element type that the validator accepts and whose signature type is
primitive, enters cooperative mode, calls AllocatePrimitiveArray once with that
signature type and `lengths[0]`, leaves cooperative mode and ends with what the call
ends with; the loader and the other allocators are not called. -/
theorem Array_CreateInstance_primitive_vector (rt : Runtime) (pTypeHnd : TypeHandle)
    (len0 : Int) (rest : List Int) (pLowerBounds : Option (List Int)) (th : Thread)
    (hok : ElementTypeValidator pTypeHnd = none)
    (hprim : rt.IsPrimitiveType pTypeHnd.GetSignatureCorElementType = true)
    (hlb : AbsentOrZero pLowerBounds) :
    Array_CreateInstance rt pTypeHnd 1 (len0 :: rest) pLowerBounds false th =
      (rt.AllocatePrimitiveArray pTypeHnd.GetSignatureCorElementType len0,
        th.after
          [Event.enterCoop,
           Event.AllocatePrimitiveArray pTypeHnd.GetSignatureCorElementType len0,
           Event.leaveCoop]) :=
  Array_CreateInstance_vector_of_primitive rt pTypeHnd len0 rest pLowerBounds th
    (CheckElementType_of_accepted hok) hprim (lowerBoundIsZero_of_absentOrZero hlb)

theorem Array_CreateInstance_primitive_vector_witness :
    Array_CreateInstance sampleRuntime (plainType 1 ELEMENT_TYPE_I4) 1 [5] none false
        freshThread =
      (Except.ok 5,
        freshThread.after
          [Event.enterCoop, Event.AllocatePrimitiveArray ELEMENT_TYPE_I4 5, Event.leaveCoop]) :=
  Array_CreateInstance_primitive_vector sampleRuntime (plainType 1 ELEMENT_TYPE_I4) 5 [] none
    freshThread (by decide) rfl (Or.inl rfl)

/-- Claim C5. A from-element-type request of rank 1, with a lower bound that is absent
or `[0]`, for an element type E that the validator accepts and that is not primitive,
calls the loader once, for the vector type of E (no array kind, no rank given); when
the loader finds the type T the request then enters cooperative mode, calls
AllocateSzArray with T and `lengths[0]`, leaves cooperative mode and ends with what
that call ends with; when the loader throws, the request ends with that exception. In
both cases AllocateArrayEx is not called. -/
theorem Array_CreateInstance_resolved_vector (rt : Runtime) (pTypeHnd : TypeHandle)
    (len0 : Int) (rest : List Int) (pLowerBounds : Option (List Int)) (th : Thread)
    (hok : ElementTypeValidator pTypeHnd = none)
    (hprim : rt.IsPrimitiveType pTypeHnd.GetSignatureCorElementType = false)
    (hlb : AbsentOrZero pLowerBounds) :
    Array_CreateInstance rt pTypeHnd 1 (len0 :: rest) pLowerBounds false th =
      match rt.LoadArrayTypeThrowing pTypeHnd LoadArgs.defaults with
      | Except.ok T =>
        (rt.AllocateSzArray T len0,
          th.after
            [Event.LoadArrayTypeThrowing pTypeHnd LoadArgs.defaults,
             Event.enterCoop, Event.AllocateSzArray T len0, Event.leaveCoop])
      | Except.error e =>
        (Except.error e, th.after [Event.LoadArrayTypeThrowing pTypeHnd LoadArgs.defaults]) :=
  Array_CreateInstance_vector_of_loaded rt pTypeHnd len0 rest pLowerBounds th
    (CheckElementType_of_accepted hok) hprim (lowerBoundIsZero_of_absentOrZero hlb)

theorem Array_CreateInstance_resolved_vector_witness :
    Array_CreateInstance sampleRuntime (plainType 1 ELEMENT_TYPE_CLASS) 1 [5] (some [0]) false
        freshThread =
      (Except.ok 5,
        freshThread.after
          [Event.LoadArrayTypeThrowing (plainType 1 ELEMENT_TYPE_CLASS) LoadArgs.defaults,
           Event.enterCoop, Event.AllocateSzArray (arrayType 1001 1 false) 5,
           Event.leaveCoop]) :=
  Array_CreateInstance_resolved_vector sampleRuntime (plainType 1 ELEMENT_TYPE_CLASS) 5 []
    (some [0]) freshThread (by decide) rfl (Or.inr rfl)


theorem interleave_snoc (xs ys : List Int) (x y : Int) (h : xs.length = ys.length) :
    interleave (xs ++ [x]) (ys ++ [y]) = interleave xs ys ++ [x, y] := by
  induction xs generalizing ys with
  | nil =>
    cases ys with
    | nil => rfl
    | cons b bs => simp at h
  | cons a as ih =>
    cases ys with
    | nil => simp at h
    | cons b bs =>
      simp only [List.length_cons, Nat.succ.injEq, add_left_inj] at h
      simp [interleave, ih bs h]

theorem interleave_length (xs ys : List Int) (h : xs.length = ys.length) :
    (interleave xs ys).length = 2 * xs.length := by
  induction xs generalizing ys with
  | nil => cases ys <;> simp [interleave]
  | cons a as ih =>
    cases ys with
    | nil => simp at h
    | cons b bs =>
      simp only [List.length_cons, add_left_inj] at h
      simp [interleave, ih bs h]; omega

theorem take_snoc_drop (l c : List Int) (k : Nat) (hk : k < l.length) (hc : k < c.length) :
    l.take k ++ (c.drop k).set 0 l[k] = l.take (k + 1) ++ c.drop (k + 1) := by
  have ht : l.take (k + 1) = l.take k ++ [l[k]] := by
    rw [List.take_succ, List.getElem?_eq_getElem hk]; rfl
  rw [ht, List.drop_eq_getElem_cons hc, List.set_cons_zero, List.append_assoc]
  rfl

theorem copyLoop (pLengths : List Int) (b : Scratch) (k : Nat)
    (hk : k ≤ pLengths.length) (hb : pLengths.length ≤ b.cells.length) :
    (List.range k).foldlM (copyStep pLengths) b =
      Except.ok { cells := pLengths.take k ++ b.cells.drop k,
                  writes := b.writes ++ List.range k } := by
  induction k with
  | zero => simp [pure, Except.pure]
  | succ k ih =>
    have hk1 : k < pLengths.length := hk
    have hmin : min k pLengths.length = k := by omega
    have hlt : k < k + (b.cells.length - k) := by omega
    rw [List.range_succ, List.foldlM_append, ih (by omega)]
    simp [bind, Except.bind, copyStep, readINT32, storeINT32, pure, Except.pure, hk1, hmin, hlt]
    exact take_snoc_drop pLengths b.cells k hk1 (by omega)

theorem toINT32_small (x : Int) (h0 : 0 ≤ x) (h1 : x < 2147483648) : toINT32 x = x := by
  unfold toINT32; omega

theorem set_set_drop (c pre : List Int) (x y : Int) (hp : pre.length + 1 < c.length) :
    ((pre ++ c.drop pre.length).set pre.length x).set (pre.length + 1) y =
      (pre ++ [x, y]) ++ c.drop (pre.length + 2) := by
  have h0 : pre.length < c.length := by omega
  have h1 : pre.length + 1 - pre.length = 1 := by omega
  rw [List.set_append_right _ _ (le_refl _), Nat.sub_self, List.drop_eq_getElem_cons h0,
    List.set_cons_zero, List.set_append_right _ _ (by omega), h1,
    List.drop_eq_getElem_cons hp, List.append_assoc]
  rfl


theorem readINT32_ofNat (p : List Int) (k : Nat) (hk : k < p.length) :
    readINT32 p (k : Int) = Except.ok p[k] := by
  simp [readINT32, List.getElem?_eq_getElem hk]

theorem storeINT32_ofNat (b : Scratch) (k : Nat) (v : Int) (hk : k < b.cells.length) :
    storeINT32 b (k : Int) v =
      Except.ok { cells := b.cells.set k v, writes := b.writes ++ [k] } := by
  simp [storeINT32, hk]

theorem interleaveStep_ok (pLengths pLowerBounds : List Int) (b : Scratch) (k : Nat)
    (hk1 : k < pLengths.length) (hk2 : k < pLowerBounds.length)
    (hb : 2 * k + 1 < b.cells.length) (hsmall : k ≤ 1073741823) :
    interleaveStep pLengths pLowerBounds b k =
      Except.ok { cells := (b.cells.set (2 * k) pLowerBounds[k]).set (2 * k + 1) pLengths[k],
                  writes := b.writes ++ [2 * k, 2 * k + 1] } := by
  have e1 : toINT32 (2 * (k : Int)) = ((2 * k : Nat) : Int) := by
    rw [toINT32_small _ (by omega) (by omega)]; push_cast; rfl
  have e2 : toINT32 (2 * (k : Int) + 1) = ((2 * k + 1 : Nat) : Int) := by
    rw [toINT32_small _ (by omega) (by omega)]; push_cast; rfl
  unfold interleaveStep
  rw [e1, e2, readINT32_ofNat _ _ hk2, readINT32_ofNat _ _ hk1]
  simp only [bind, Except.bind]
  rw [storeINT32_ofNat _ _ _ (by omega)]
  simp only []
  rw [storeINT32_ofNat _ _ _ (by simp; omega)]
  simp


theorem take_succ_snoc (l : List Int) (k : Nat) (hk : k < l.length) :
    l.take (k + 1) = l.take k ++ [l[k]] := by
  rw [List.take_succ, List.getElem?_eq_getElem hk]; rfl

theorem interleaveLoop (pLengths pLowerBounds : List Int) (b : Scratch) (k : Nat)
    (hk : k ≤ pLengths.length) (hlb : pLowerBounds.length = pLengths.length)
    (hb : 2 * pLengths.length ≤ b.cells.length) (hsmall : pLengths.length ≤ 1073741824) :
    (List.range k).foldlM (interleaveStep pLengths pLowerBounds) b =
      Except.ok
        { cells := interleave (pLowerBounds.take k) (pLengths.take k) ++ b.cells.drop (2 * k),
          writes := b.writes ++ List.range (2 * k) } := by
  induction k with
  | zero => simp [pure, Except.pure, interleave]
  | succ k ih =>
    have hk1 : k < pLengths.length := hk
    have hk2 : k < pLowerBounds.length := by omega
    have htl : (pLowerBounds.take k).length = (pLengths.take k).length := by
      rw [List.length_take, List.length_take]; omega
    have hl : (interleave (pLowerBounds.take k) (pLengths.take k)).length = 2 * k := by
      rw [interleave_length _ _ htl, List.length_take]; omega
    have hcells :
        (interleave (pLowerBounds.take k) (pLengths.take k) ++ b.cells.drop (2 * k)).length =
          b.cells.length := by
      rw [List.length_append, hl, List.length_drop]; omega
    rw [List.range_succ, List.foldlM_append, ih (by omega)]
    simp only [bind, Except.bind, List.foldlM_cons, List.foldlM_nil]
    rw [interleaveStep_ok _ _ _ _ hk1 hk2 (by rw [hcells]; omega) (by omega)]
    simp only [pure, Except.pure]
    have hset := set_set_drop b.cells (interleave (pLowerBounds.take k) (pLengths.take k))
      pLowerBounds[k] pLengths[k] (by rw [hl]; omega)
    rw [hl] at hset
    rw [hset, take_succ_snoc _ _ hk1, take_succ_snoc _ _ hk2, interleave_snoc _ _ _ _ htl]
    have hr : List.range (2 * (k + 1)) = List.range (2 * k) ++ [2 * k, 2 * k + 1] := by
      have : 2 * (k + 1) = 2 * k + 1 + 1 := by ring
      rw [this, List.range_succ, List.range_succ, List.append_assoc]; rfl
    simp only [hr, List.append_assoc]
    rfl


theorem alloca_cells_length (rt : Runtime) (n : Nat) : (alloca rt n).cells.length = n := by
  simp [alloca]

theorem encodeBounds_absent (rt : Runtime) (rank : Int) (pLengths : List Int)
    (h1 : 1 ≤ rank) (h2 : rank ≤ MAX_RANK) (hlen : (pLengths.length : Int) = rank) :
    encodeBounds rt rank pLengths none =
      (rank.toNat, Except.ok { cells := pLengths, writes := List.range rank.toNat }) := by
  have hn : rank.toNat = pLengths.length := by omega
  have hsize : toDWORD rank = pLengths.length := by
    unfold MAX_RANK at h2; unfold toDWORD; omega
  unfold encodeBounds
  simp only [hsize, hn]
  rw [copyLoop pLengths _ pLengths.length (le_refl _) (by rw [alloca_cells_length])]
  have hd : List.drop pLengths.length (alloca rt pLengths.length).cells = [] := by
    apply List.drop_of_length_le; rw [alloca_cells_length]
  rw [List.take_length, hd]
  simp [alloca]

theorem encodeBounds_present (rt : Runtime) (rank : Int) (pLengths pLowerBounds : List Int)
    (h1 : 1 ≤ rank) (h2 : rank ≤ MAX_RANK) (hlen : (pLengths.length : Int) = rank)
    (hlb : (pLowerBounds.length : Int) = rank) :
    encodeBounds rt rank pLengths (some pLowerBounds) =
      (2 * rank.toNat,
        Except.ok { cells := interleave pLowerBounds pLengths,
                    writes := List.range (2 * rank.toNat) }) := by
  have hn : rank.toNat = pLengths.length := by omega
  have hll : pLowerBounds.length = pLengths.length := by omega
  have hsize : toDWORD (toINT32 (2 * rank)) = 2 * pLengths.length := by
    unfold MAX_RANK at h2; unfold toDWORD toINT32; omega
  have hsmall : pLengths.length ≤ 1073741824 := by unfold MAX_RANK at h2; omega
  unfold encodeBounds
  simp only [hsize, hn]
  rw [interleaveLoop pLengths pLowerBounds _ pLengths.length (le_refl _) hll
    (by rw [alloca_cells_length]) hsmall]
  have hd : List.drop (2 * pLengths.length) (alloca rt (2 * pLengths.length)).cells = [] := by
    apply List.drop_of_length_le; rw [alloca_cells_length]
  have ht : List.take pLengths.length pLowerBounds = pLowerBounds := by
    rw [← hll, List.take_length]
  rw [List.take_length, ht, hd]
  simp [alloca]

theorem shortcut_not_taken (rank : Int) (pLowerBounds : Option (List Int))
    (hlb : ∀ lb, pLowerBounds = some lb → (lb.length : Int) = rank)
    (h : ¬ (rank = 1 ∧ AbsentOrZero pLowerBounds)) :
    rank ≠ 1 ∨ lowerBoundIsZero pLowerBounds = Except.ok false := by
  by_cases hr : rank = 1
  · subst hr
    right
    cases pLowerBounds with
    | none => exact absurd ⟨rfl, Or.inl rfl⟩ h
    | some lb =>
      have hl := hlb lb rfl
      match lb, hl with
      | [x], _ =>
        have hx : x ≠ 0 := by
          intro hx; subst hx; exact h ⟨rfl, Or.inr rfl⟩
        have hb : (x == 0) = false := by simp [hx]
        simp [lowerBoundIsZero, readINT32, hb]
      | [], hl => simp at hl
      | _ :: _ :: _, hl => simp at hl; omega
  · exact Or.inl hr

theorem Array_CreateInstance_general_of_build (rt : Runtime) (pTypeHnd : TypeHandle)
    (rank : Int) (pLengths : List Int) (pLowerBounds : Option (List Int))
    (createFromArrayType : Bool) (T : TypeHandle) (th : Thread) (cells : List Int)
    (writes : List Nat) (n : Nat)
    (hassert : rt.debugBuild = true → rank ≤ MAX_RANK)
    (hlb : ∀ lb, pLowerBounds = some lb → (lb.length : Int) = rank)
    (hgen : ReachesGeneral rt pTypeHnd rank pLowerBounds createFromArrayType T)
    (henc : encodeBounds rt rank pLengths pLowerBounds =
      (n, Except.ok { cells := cells, writes := writes })) :
    Array_CreateInstance rt pTypeHnd rank pLengths pLowerBounds createFromArrayType th =
      (rt.AllocateArrayEx T cells n,
        th.after (generalEvents pTypeHnd rank createFromArrayType T cells n)) := by
  cases createFromArrayType with
  | true =>
    simp only [ReachesGeneral, if_true] at hgen
    obtain ⟨hclosed, hmd, hT, hdbg⟩ := hgen
    subst hT
    cases hd : rt.debugBuild with
    | false =>
      simp [Array_CreateInstance, bind, QCall.bind, liftExcept, pure, ASSERTE, GCX_COOP,
        callAllocator, Thread.after, generalEvents, QCall.rewrap, hclosed, hmd, hd, henc]
    | true =>
      obtain ⟨hrank, harr⟩ := hdbg hd
      have h2 := hassert hd
      simp [Array_CreateInstance, bind, QCall.bind, liftExcept, pure, ASSERTE, GCX_COOP,
        callAllocator, Thread.after, generalEvents, QCall.rewrap, hclosed, hmd, hd, henc,
        hrank, harr, h2]
  | false =>
    simp only [ReachesGeneral, Bool.false_eq_true, if_false] at hgen
    obtain ⟨hok, hne, hload⟩ := hgen
    have hz : rank ≠ 1 ∨ lowerBoundIsZero pLowerBounds = Except.ok false :=
      shortcut_not_taken rank pLowerBounds hlb hne
    by_cases hr : rank = 1
    · have hz1 : lowerBoundIsZero pLowerBounds = Except.ok false := hz.resolve_left (not_not.2 hr)
      subst hr
      cases hd : rt.debugBuild with
      | false =>
        simp [Array_CreateInstance, bind, QCall.bind, liftExcept, pure, ASSERTE, GCX_COOP,
          callLoader, callAllocator, Thread.after, generalEvents, QCall.rewrap, hok, hload, hd,
          henc, hz1]
      | true =>
        have h2 := hassert hd
        simp [Array_CreateInstance, bind, QCall.bind, liftExcept, pure, ASSERTE, GCX_COOP,
          callLoader, callAllocator, Thread.after, generalEvents, QCall.rewrap, hok, hload, hd,
          henc, h2, hz1]
    · cases hd : rt.debugBuild with
      | false =>
        simp [Array_CreateInstance, bind, QCall.bind, liftExcept, pure, ASSERTE, GCX_COOP,
          callLoader, callAllocator, Thread.after, generalEvents, QCall.rewrap, hok, hload, hd,
          henc, hr]
      | true =>
        have h2 := hassert hd
        simp [Array_CreateInstance, bind, QCall.bind, liftExcept, pure, ASSERTE, GCX_COOP,
          callLoader, callAllocator, Thread.after, generalEvents, QCall.rewrap, hok, hload, hd,
          henc, h2, hr]

theorem Array_CreateInstance_general (rt : Runtime) (pTypeHnd : TypeHandle) (rank : Int)
    (pLengths : List Int) (pLowerBounds : Option (List Int)) (createFromArrayType : Bool)
    (T : TypeHandle) (th : Thread) (cells : List Int) (writes : List Nat) (n : Nat)
    (h2 : rank ≤ MAX_RANK)
    (hlb : ∀ lb, pLowerBounds = some lb → (lb.length : Int) = rank)
    (hgen : ReachesGeneral rt pTypeHnd rank pLowerBounds createFromArrayType T)
    (henc : encodeBounds rt rank pLengths pLowerBounds =
      (n, Except.ok { cells := cells, writes := writes })) :
    Array_CreateInstance rt pTypeHnd rank pLengths pLowerBounds createFromArrayType th =
      (rt.AllocateArrayEx T cells n,
        th.after (generalEvents pTypeHnd rank createFromArrayType T cells n)) :=
  Array_CreateInstance_general_of_build rt pTypeHnd rank pLengths pLowerBounds
    createFromArrayType T th cells writes n (fun _ => h2) hlb hgen henc

theorem interleave_getElem_opt (xs ys : List Int) (h : xs.length = ys.length) (i : Nat) :
    (interleave xs ys)[2 * i]? = xs[i]? ∧
    (i < xs.length → (interleave xs ys)[2 * i + 1]? = ys[i]?) := by
  induction xs generalizing ys i with
  | nil => cases ys <;> simp [interleave]
  | cons a as ih =>
    cases ys with
    | nil => simp at h
    | cons b bs =>
      simp only [List.length_cons, add_left_inj] at h
      cases i with
      | zero => simp [interleave]
      | succ j =>
        have e1 : 2 * (j + 1) = 2 * j + 1 + 1 := by ring
        have e2 : 2 * (j + 1) + 1 = 2 * j + 1 + 1 + 1 := by ring
        obtain ⟨ih1, ih2⟩ := ih bs h j
        refine ⟨?_, ?_⟩
        · rw [e1]; simpa [interleave] using ih1
        · intro hj
          rw [e2]
          simpa [interleave] using ih2 (by simpa using hj)

/-! ## Array_CreateInstance: the general path -/

/-- Claim C6. A request of rank between 1 and MAX_RANK with `rank` lengths and no lower
bounds that takes the general path passes to AllocateArrayEx the buffer
`[length_0, ..., length_{rank-1}]` and the buffer length `rank`, inside cooperative
mode; the array type passed is the supplied descriptor for a from-array-type request
and, for a from-element-type request with the accepted element type E, the type the
loader returned for (E, ELEMENT_TYPE_ARRAY, rank), resolved just before. The request
ends with what that call ends with. -/
theorem Array_CreateInstance_general_lengths (rt : Runtime) (pTypeHnd : TypeHandle)
    (rank : Int) (pLengths : List Int) (createFromArrayType : Bool) (T : TypeHandle)
    (th : Thread)
    (h1 : 1 ≤ rank) (h2 : rank ≤ MAX_RANK) (hlen : (pLengths.length : Int) = rank)
    (hgen : ReachesGeneral rt pTypeHnd rank none createFromArrayType T) :
    Array_CreateInstance rt pTypeHnd rank pLengths none createFromArrayType th =
      (rt.AllocateArrayEx T pLengths rank.toNat,
        th.after (generalEvents pTypeHnd rank createFromArrayType T pLengths rank.toNat)) :=
  Array_CreateInstance_general rt pTypeHnd rank pLengths none createFromArrayType T th
    pLengths (List.range rank.toNat) rank.toNat h2 (fun _ h => by cases h) hgen
    (encodeBounds_absent rt rank pLengths h1 h2 hlen)

theorem Array_CreateInstance_general_lengths_witness :
    Array_CreateInstance sampleRuntime (plainType 1 ELEMENT_TYPE_CLASS) 3 [2, 3, 4] none false
        freshThread =
      (Except.ok 9,
        freshThread.after
          [Event.LoadArrayTypeThrowing (plainType 1 ELEMENT_TYPE_CLASS)
             (LoadArgs.explicit ELEMENT_TYPE_ARRAY 3),
           Event.enterCoop, Event.AllocateArrayEx (arrayType 2001 3 true) [2, 3, 4] 3,
           Event.leaveCoop]) :=
  Array_CreateInstance_general_lengths sampleRuntime (plainType 1 ELEMENT_TYPE_CLASS) 3
    [2, 3, 4] false (arrayType 2001 3 true) freshThread (by decide) (by decide) (by decide)
    (by simp [ReachesGeneral, CheckElementType, plainType, sampleRuntime])

/-- Claim C7. A request of rank between 1 and MAX_RANK with `rank` lengths and `rank`
lower bounds that takes the general path passes to AllocateArrayEx, inside cooperative
mode, a buffer of exactly `2 * rank` entries, with buffer length `2 * rank`, in which
entry `2 * i` is `lowerBounds[i]` and entry `2 * i + 1` is `lengths[i]` for every
`i < rank`; zero lower bounds are written like any other. -/
theorem Array_CreateInstance_general_interleaved (rt : Runtime) (pTypeHnd : TypeHandle)
    (rank : Int) (pLengths pLowerBounds : List Int) (createFromArrayType : Bool)
    (T : TypeHandle) (th : Thread)
    (h1 : 1 ≤ rank) (h2 : rank ≤ MAX_RANK) (hlen : (pLengths.length : Int) = rank)
    (hlb : (pLowerBounds.length : Int) = rank)
    (hgen : ReachesGeneral rt pTypeHnd rank (some pLowerBounds) createFromArrayType T) :
    Array_CreateInstance rt pTypeHnd rank pLengths (some pLowerBounds) createFromArrayType th =
      (rt.AllocateArrayEx T (interleave pLowerBounds pLengths) (2 * rank.toNat),
        th.after (generalEvents pTypeHnd rank createFromArrayType T
          (interleave pLowerBounds pLengths) (2 * rank.toNat))) ∧
    (interleave pLowerBounds pLengths).length = 2 * rank.toNat ∧
    ∀ i : Nat, i < rank.toNat →
      (interleave pLowerBounds pLengths)[2 * i]? = pLowerBounds[i]? ∧
      (interleave pLowerBounds pLengths)[2 * i + 1]? = pLengths[i]? := by
  have hll : pLowerBounds.length = pLengths.length := by omega
  refine ⟨?_, ?_, ?_⟩
  · exact Array_CreateInstance_general rt pTypeHnd rank pLengths (some pLowerBounds)
      createFromArrayType T th (interleave pLowerBounds pLengths) (List.range (2 * rank.toNat))
      (2 * rank.toNat) h2 (fun lb h => by cases h; exact hlb) hgen
      (encodeBounds_present rt rank pLengths pLowerBounds h1 h2 hlen hlb)
  · rw [interleave_length _ _ hll]; omega
  · intro i hi
    obtain ⟨e1, e2⟩ := interleave_getElem_opt pLowerBounds pLengths hll i
    exact ⟨e1, e2 (by omega)⟩

theorem Array_CreateInstance_general_interleaved_witness :
    Array_CreateInstance sampleRuntime (plainType 1 ELEMENT_TYPE_CLASS) 2 [2, 2] (some [1, 1])
        false freshThread =
      (Except.ok 6,
        freshThread.after
          [Event.LoadArrayTypeThrowing (plainType 1 ELEMENT_TYPE_CLASS)
             (LoadArgs.explicit ELEMENT_TYPE_ARRAY 2),
           Event.enterCoop, Event.AllocateArrayEx (arrayType 2001 2 true) [1, 2, 1, 2] 4,
           Event.leaveCoop]) :=
  (Array_CreateInstance_general_interleaved sampleRuntime (plainType 1 ELEMENT_TYPE_CLASS) 2
    [2, 2] [1, 1] false (arrayType 2001 2 true) freshThread (by decide) (by decide) (by decide)
    (by decide) (by simp [ReachesGeneral, CheckElementType, plainType, sampleRuntime])).1

/-! ## Array_CreateInstanceMDArray -/

/-- Claim C8. For every fully loaded array type T, argument buffer and count,
Array_CreateInstanceMDArray enters cooperative mode, calls AllocateArrayEx once with
T, the buffer as it was given and the count, leaves cooperative mode and ends with
what that call ends with; the loader is not called. -/
theorem Array_CreateInstanceMDArray_delegates (rt : Runtime) (typeHandle : TypeHandle)
    (dwNumArgs : Nat) (pArgList : List Int) (th : Thread)
    (hloaded : typeHandle.IsFullyLoaded = true) (harr : typeHandle.MethodTableIsArray = true) :
    Array_CreateInstanceMDArray rt typeHandle dwNumArgs pArgList th =
      (rt.AllocateArrayEx typeHandle pArgList dwNumArgs,
        th.after
          [Event.enterCoop, Event.AllocateArrayEx typeHandle pArgList dwNumArgs,
           Event.leaveCoop]) := by
  cases hd : rt.debugBuild <;>
    simp [Array_CreateInstanceMDArray, bind, QCall.bind, pure, ASSERTE, GCX_COOP,
      callAllocator, Thread.after, hloaded, harr, hd]

theorem Array_CreateInstanceMDArray_delegates_witness :
    Array_CreateInstanceMDArray sampleRuntime (arrayType 1 2 true) 2 [3, 4] freshThread =
      (Except.ok 7,
        freshThread.after
          [Event.enterCoop, Event.AllocateArrayEx (arrayType 1 2 true) [3, 4] 2,
           Event.leaveCoop]) :=
  Array_CreateInstanceMDArray_delegates sampleRuntime (arrayType 1 2 true) 2 [3, 4] freshThread
    rfl rfl

/-! ## memmoveGCRefs: the claim -/

/-- Claim C9. For non-null `dest` and `src` and for `dest`, `src` and `len` aligned to
the machine word, memmoveGCRefs leaves the GC heap as it was and does not call the
helper when `len` is 0 or `dest` equals `src`, whatever `len` is in the second case;
otherwise it calls the helper once, with the same `dest`, `src` and `len`; and the
helper is called, once and with these arguments, exactly when `len` is not 0 and
`dest` differs from `src`. -/
theorem memmoveGCRefs_noop_or_helper {H : Type} (rt : GCRuntime H) (dest src len : Nat)
    (heap : GCHeap H) (hdest : dest ≠ 0) (hsrc : src ≠ 0)
    (hadest : IS_ALIGNED dest rt.sizeofSIZE_T = true)
    (hasrc : IS_ALIGNED src rt.sizeofSIZE_T = true)
    (halen : IS_ALIGNED len rt.sizeofSIZE_T = true) :
    ((len = 0 ∨ dest = src) → memmoveGCRefs rt dest src len heap = (Except.ok (), heap)) ∧
    ((len ≠ 0 ∧ dest ≠ src) →
      memmoveGCRefs rt dest src len heap =
        (Except.ok (),
          { state := rt.InlinedMemmoveGCRefsHelper dest src len heap.state,
            helperCalls := heap.helperCalls ++ [(dest, src, len)] })) ∧
    ((memmoveGCRefs rt dest src len heap).2.helperCalls =
        heap.helperCalls ++ [(dest, src, len)] ↔ (len ≠ 0 ∧ dest ≠ src)) := by
  have hassert :
      (rt.debugBuild &&
        !(dest != 0 && src != 0 &&
          IS_ALIGNED dest rt.sizeofSIZE_T && IS_ALIGNED src rt.sizeofSIZE_T &&
          IS_ALIGNED len rt.sizeofSIZE_T)) = false := by
    simp [hdest, hsrc, hadest, hasrc, halen]
  refine ⟨?_, ?_, ?_⟩
  · intro h
    unfold memmoveGCRefs
    rw [hassert]
    rcases h with h | h <;> simp [h]
  · intro h
    unfold memmoveGCRefs
    rw [hassert]
    simp [h.1, h.2]
  · unfold memmoveGCRefs
    rw [hassert]
    by_cases hl : len = 0
    · simp [hl]
    · by_cases he : dest = src
      · simp [he]
      · simp [hl, he]

theorem memmoveGCRefs_noop_or_helper_witness :
    memmoveGCRefs sampleGCRuntime 16 16 24 freshHeap = (Except.ok (), freshHeap) ∧
    memmoveGCRefs sampleGCRuntime 16 32 0 freshHeap = (Except.ok (), freshHeap) ∧
    memmoveGCRefs sampleGCRuntime 16 32 24 freshHeap =
      (Except.ok (), { state := 24, helperCalls := [(16, 32, 24)] }) :=
  ⟨(memmoveGCRefs_noop_or_helper sampleGCRuntime 16 16 24 freshHeap (by decide) (by decide)
      (by decide) (by decide) (by decide)).1 (Or.inr rfl),
   (memmoveGCRefs_noop_or_helper sampleGCRuntime 16 32 0 freshHeap (by decide) (by decide)
      (by decide) (by decide) (by decide)).1 (Or.inl rfl),
   (memmoveGCRefs_noop_or_helper sampleGCRuntime 16 32 24 freshHeap (by decide) (by decide)
      (by decide) (by decide) (by decide)).2.1 ⟨by decide, by decide⟩⟩


/-! ## Array_CreateInstance: which allocation primitive is called -/

theorem encodeBounds_faults_on_short_lengths :
    (encodeBounds sampleRuntime 2 [3] none).2 = Except.error Exn.accessViolation ∧
    (encodeBounds sampleRuntime 2 [3, 4] (some [0])).2 = Except.error Exn.accessViolation := by
  constructor <;> rfl

/-- Claim C14. For a rank between 1 and MAX_RANK, `rank` lengths and lower bounds that
are absent or `rank` of them, the block that encodes the bounds ends without an access
outside `pLengths`, `pLowerBounds` or the scratch buffer: the buffer has `boundsSize`
cells, every index stored to is below `boundsSize`, every index below `boundsSize` is
stored to exactly once, `boundsSize` is `rank` without lower bounds and `2 * rank` with
them, so at most `2 * MAX_RANK`, and `2 * rank` is computed without overflow of 32 bits. -/
theorem encodeBounds_stays_in_range (rt : Runtime) (rank : Int) (pLengths : List Int)
    (pLowerBounds : Option (List Int))
    (h1 : 1 ≤ rank) (h2 : rank ≤ MAX_RANK) (hlen : (pLengths.length : Int) = rank)
    (hlb : ∀ lb, pLowerBounds = some lb → (lb.length : Int) = rank) :
    ∃ cells writes,
      (encodeBounds rt rank pLengths pLowerBounds).2 =
        Except.ok { cells := cells, writes := writes } ∧
      cells.length = (encodeBounds rt rank pLengths pLowerBounds).1 ∧
      (∀ j ∈ writes, j < (encodeBounds rt rank pLengths pLowerBounds).1) ∧
      (∀ j, j < (encodeBounds rt rank pLengths pLowerBounds).1 → writes.count j = 1) ∧
      (encodeBounds rt rank pLengths pLowerBounds).1 =
        (if pLowerBounds.isSome then 2 * rank.toNat else rank.toNat) ∧
      ((encodeBounds rt rank pLengths pLowerBounds).1 : Int) ≤ 2 * MAX_RANK ∧
      toINT32 (2 * rank) = 2 * rank := by
  have hcount : ∀ n j : Nat, j < n → (List.range n).count j = 1 := fun n j hj =>
    List.count_eq_one_of_mem (List.nodup_range n) (List.mem_range.2 hj)
  have hov : toINT32 (2 * rank) = 2 * rank := by
    unfold MAX_RANK at h2; unfold toINT32; omega
  cases hL : pLowerBounds with
  | none =>
    have e := encodeBounds_absent rt rank pLengths h1 h2 hlen
    refine ⟨pLengths, List.range rank.toNat, ?_, ?_, ?_, ?_, ?_, ?_, hov⟩
    · rw [e]
    · rw [e]; show pLengths.length = rank.toNat; omega
    · intro j hj; rw [e]; exact List.mem_range.1 hj
    · intro j hj; rw [e] at hj; exact hcount _ _ hj
    · rw [e]; rfl
    · rw [e]; show ((rank.toNat : Nat) : Int) ≤ 2 * MAX_RANK
      unfold MAX_RANK at h2 ⊢; omega
  | some lb =>
    have hl := hlb lb hL
    have e := encodeBounds_present rt rank pLengths lb h1 h2 hlen hl
    refine ⟨interleave lb pLengths, List.range (2 * rank.toNat), ?_, ?_, ?_, ?_, ?_, ?_, hov⟩
    · rw [e]
    · rw [e, interleave_length _ _ (by omega)]
      show 2 * lb.length = 2 * rank.toNat
      omega
    · intro j hj; rw [e]; exact List.mem_range.1 hj
    · intro j hj; rw [e] at hj; exact hcount _ _ hj
    · rw [e]; rfl
    · rw [e]; show ((2 * rank.toNat : Nat) : Int) ≤ 2 * MAX_RANK
      unfold MAX_RANK at h2 ⊢; omega

theorem encodeBounds_stays_in_range_witness :
    ∃ cells writes,
      (encodeBounds sampleRuntime 2 [2, 2] (some [1, 1])).2 =
        Except.ok { cells := cells, writes := writes } ∧
      cells.length = (encodeBounds sampleRuntime 2 [2, 2] (some [1, 1])).1 ∧
      (∀ j ∈ writes, j < (encodeBounds sampleRuntime 2 [2, 2] (some [1, 1])).1) ∧
      (∀ j, j < (encodeBounds sampleRuntime 2 [2, 2] (some [1, 1])).1 → writes.count j = 1) ∧
      (encodeBounds sampleRuntime 2 [2, 2] (some [1, 1])).1 =
        (if (some [1, 1] : Option (List Int)).isSome then 2 * (2 : Int).toNat
          else (2 : Int).toNat) ∧
      ((encodeBounds sampleRuntime 2 [2, 2] (some [1, 1])).1 : Int) ≤ 2 * MAX_RANK ∧
      toINT32 (2 * 2) = 2 * 2 :=
  encodeBounds_stays_in_range sampleRuntime 2 [2, 2] (some [1, 1]) (by decide) (by decide)
    (by decide) (fun lb h => by cases h; decide)


/-! ## Every path of the entry points -/

theorem ASSERTE_cases (rt : Runtime) (c : Bool) :
    ASSERTE rt c = pure () ∨ ASSERTE rt c = COMPlusThrow Exn.assertFailed := by
  unfold ASSERTE
  cases rt.debugBuild <;> cases c <;> simp

theorem Array_CreateInstance_fromArrayType_paths (rt : Runtime) (pTypeHnd : TypeHandle)
    (rank : Int) (pLengths : List Int) (pLowerBounds : Option (List Int)) (th : Thread) :
    ∃ r body,
      Array_CreateInstance rt pTypeHnd rank pLengths pLowerBounds true th =
        (r, th.after body) ∧
      GuardedBody (fun e => e.arrayType = some pTypeHnd) body := by
  have hnil : th.after [] = th := by simp [Thread.after]
  rcases ASSERTE_cases rt (toINT32 pTypeHnd.GetRank == rank) with a1 | a1
  case inr =>
    exact ⟨Except.error Exn.assertFailed, [], by
      rw [hnil]; simp [Array_CreateInstance, bind, QCall.bind, a1, COMPlusThrow], Or.inl rfl⟩
  rcases ASSERTE_cases rt pTypeHnd.IsArray with a2 | a2
  case inr =>
    exact ⟨Except.error Exn.assertFailed, [], by
      rw [hnil]; simp [Array_CreateInstance, bind, QCall.bind, pure, a1, a2, COMPlusThrow],
      Or.inl rfl⟩
  cases hc : pTypeHnd.ElementContainsGenericVariables with
  | true =>
    exact ⟨Except.error (Exn.kNotSupportedException Resource.NotSupported_OpenType), [], by
      rw [hnil]; simp [Array_CreateInstance, bind, QCall.bind, pure, a1, a2, hc, COMPlusThrow],
      Or.inl rfl⟩
  | false =>
    cases hm : pTypeHnd.IsMultiDimArray with
    | false =>
      have a3 : ASSERTE rt true = pure () := by simp [ASSERTE]
      have hvec : ∀ th1 : Thread, ∃ r body,
          (GCX_COOP (liftExcept (readINT32 pLengths 0) >>= fun len =>
              callAllocator (Event.AllocateSzArray pTypeHnd len)
                (rt.AllocateSzArray pTypeHnd len))) th1 = (r, th1.after body) ∧
            GuardedBody (fun e => e.arrayType = some pTypeHnd) body := by
        intro th1
        cases hl : readINT32 pLengths 0 with
        | error e =>
          exact ⟨Except.error e, [Event.enterCoop, Event.leaveCoop], by
            simp [bind, QCall.bind, liftExcept, GCX_COOP, Thread.after, hl], Or.inr (Or.inl rfl)⟩
        | ok len =>
          exact ⟨rt.AllocateSzArray pTypeHnd len,
            [Event.enterCoop, Event.AllocateSzArray pTypeHnd len, Event.leaveCoop], by
            simp [bind, QCall.bind, liftExcept, GCX_COOP, callAllocator, Thread.after, hl],
            Or.inr (Or.inr ⟨Event.AllocateSzArray pTypeHnd len, rfl, rfl, rfl⟩)⟩
      obtain ⟨r, body, hrun, hbody⟩ := hvec th
      cases hd : rt.debugBuild with
      | false =>
        refine ⟨r, body, ?_, hbody⟩
        rw [← hrun]
        simp [Array_CreateInstance, bind, QCall.bind, pure, a1, a2, hc, hm, hd, QCall.rewrap]
      | true =>
        cases hz : lowerBoundIsZero pLowerBounds with
        | error e =>
          exact ⟨Except.error e, [], by
            rw [hnil]
            simp [Array_CreateInstance, bind, QCall.bind, pure, a1, a2, hc, hm, hd, hz,
              liftExcept], Or.inl rfl⟩
        | ok z =>
          cases z with
          | false =>
            have a5 : ASSERTE rt false = COMPlusThrow Exn.assertFailed := by simp [ASSERTE, hd]
            exact ⟨Except.error Exn.assertFailed, [], by
              rw [hnil]
              simp [Array_CreateInstance, bind, QCall.bind, pure, a1, a2, a5, hc, hm, hd, hz,
                liftExcept, COMPlusThrow], Or.inl rfl⟩
          | true =>
            refine ⟨r, body, ?_, hbody⟩
            rw [← hrun]
            simp [Array_CreateInstance, bind, QCall.bind, pure, a1, a2, a3, hc, hm, hd, hz,
              liftExcept, QCall.rewrap]
    | true =>
      rcases ASSERTE_cases rt (decide (rank ≤ MAX_RANK)) with a4 | a4
      case inr =>
        exact ⟨Except.error Exn.assertFailed, [], by
          rw [hnil]
          simp [Array_CreateInstance, bind, QCall.bind, pure, a1, a2, a4, hc, hm, COMPlusThrow],
          Or.inl rfl⟩
      obtain ⟨n, filled, hE⟩ : ∃ n filled, encodeBounds rt rank pLengths pLowerBounds = (n, filled) :=
        ⟨_, _, rfl⟩
      cases filled with
      | error e =>
        exact ⟨Except.error e, [], by
          rw [hnil]
          simp [Array_CreateInstance, bind, QCall.bind, pure, a1, a2, a4, hc, hm, hE, liftExcept],
          Or.inl rfl⟩
      | ok bounds =>
        exact ⟨rt.AllocateArrayEx pTypeHnd bounds.cells n,
          [Event.enterCoop, Event.AllocateArrayEx pTypeHnd bounds.cells n, Event.leaveCoop], by
          simp [Array_CreateInstance, bind, QCall.bind, pure, a1, a2, a4, hc, hm, hE, liftExcept,
            GCX_COOP, callAllocator, Thread.after],
          Or.inr (Or.inr ⟨Event.AllocateArrayEx pTypeHnd bounds.cells n, rfl, rfl, rfl⟩)⟩


theorem Array_CreateInstance_rejected_path (rt : Runtime) (pTypeHnd : TypeHandle) (rank : Int)
    (pLengths : List Int) (pLowerBounds : Option (List Int)) (th : Thread) (e : Exn)
    (h : CheckElementType pTypeHnd = Except.error e) :
    Array_CreateInstance rt pTypeHnd rank pLengths pLowerBounds false th =
      (Except.error e, th) := by
  simp [Array_CreateInstance, bind, QCall.bind, liftExcept, h]

theorem Array_CreateInstance_lowerBound_fault_path (rt : Runtime) (pTypeHnd : TypeHandle)
    (pLengths : List Int) (pLowerBounds : Option (List Int)) (th : Thread) (e : Exn)
    (h : CheckElementType pTypeHnd = Except.ok ())
    (hz : lowerBoundIsZero pLowerBounds = Except.error e) :
    Array_CreateInstance rt pTypeHnd 1 pLengths pLowerBounds false th =
      (Except.error e, th) := by
  simp [Array_CreateInstance, bind, QCall.bind, liftExcept, h, hz]

theorem Array_CreateInstance_primitive_paths (rt : Runtime) (pTypeHnd : TypeHandle)
    (pLengths : List Int) (pLowerBounds : Option (List Int)) (th : Thread)
    (h : CheckElementType pTypeHnd = Except.ok ())
    (hz : lowerBoundIsZero pLowerBounds = Except.ok true)
    (hprim : rt.IsPrimitiveType pTypeHnd.GetSignatureCorElementType = true) :
    ∃ r body,
      Array_CreateInstance rt pTypeHnd 1 pLengths pLowerBounds false th = (r, th.after body) ∧
      GuardedBody (fun e => e.arrayType = none) body := by
  cases hl : readINT32 pLengths 0 with
  | error e =>
    exact ⟨Except.error e, [Event.enterCoop, Event.leaveCoop], by
      simp [Array_CreateInstance, bind, QCall.bind, liftExcept, pure, GCX_COOP, Thread.after,
        h, hz, hprim, hl], Or.inr (Or.inl rfl)⟩
  | ok len =>
    exact ⟨rt.AllocatePrimitiveArray pTypeHnd.GetSignatureCorElementType len,
      [Event.enterCoop,
        Event.AllocatePrimitiveArray pTypeHnd.GetSignatureCorElementType len,
        Event.leaveCoop], by
      simp [Array_CreateInstance, bind, QCall.bind, liftExcept, pure, GCX_COOP, callAllocator,
        Thread.after, QCall.rewrap, h, hz, hprim, hl],
      Or.inr (Or.inr ⟨Event.AllocatePrimitiveArray pTypeHnd.GetSignatureCorElementType len,
        rfl, rfl, rfl⟩)⟩

theorem Array_CreateInstance_loaded_paths (rt : Runtime) (pTypeHnd : TypeHandle)
    (pLengths : List Int) (pLowerBounds : Option (List Int)) (th : Thread)
    (h : CheckElementType pTypeHnd = Except.ok ())
    (hz : lowerBoundIsZero pLowerBounds = Except.ok true)
    (hprim : rt.IsPrimitiveType pTypeHnd.GetSignatureCorElementType = false) :
    ∃ r body,
      Array_CreateInstance rt pTypeHnd 1 pLengths pLowerBounds false th =
        (r, th.after (Event.LoadArrayTypeThrowing pTypeHnd LoadArgs.defaults :: body)) ∧
      GuardedBody
        (fun e => ∃ T, rt.LoadArrayTypeThrowing pTypeHnd LoadArgs.defaults = Except.ok T ∧
          e.arrayType = some T) body := by
  cases hT : rt.LoadArrayTypeThrowing pTypeHnd LoadArgs.defaults with
  | error e =>
    exact ⟨Except.error e, [], by
      simp [Array_CreateInstance, bind, QCall.bind, liftExcept, pure, callLoader, Thread.after,
        h, hz, hprim, hT], Or.inl rfl⟩
  | ok T =>
    cases hl : readINT32 pLengths 0 with
    | error e =>
      exact ⟨Except.error e, [Event.enterCoop, Event.leaveCoop], by
        simp [Array_CreateInstance, bind, QCall.bind, liftExcept, pure, callLoader, GCX_COOP,
          Thread.after, h, hz, hprim, hT, hl], Or.inr (Or.inl rfl)⟩
    | ok len =>
      exact ⟨rt.AllocateSzArray T len,
        [Event.enterCoop, Event.AllocateSzArray T len, Event.leaveCoop], by
        simp [Array_CreateInstance, bind, QCall.bind, liftExcept, pure, callLoader, GCX_COOP,
          callAllocator, Thread.after, QCall.rewrap, h, hz, hprim, hT, hl],
        Or.inr (Or.inr ⟨Event.AllocateSzArray T len, rfl, ⟨T, rfl, rfl⟩, rfl⟩)⟩

theorem Array_CreateInstance_general_paths (rt : Runtime) (pTypeHnd : TypeHandle) (rank : Int)
    (pLengths : List Int) (pLowerBounds : Option (List Int)) (th : Thread)
    (h : CheckElementType pTypeHnd = Except.ok ())
    (hz : rank ≠ 1 ∨ lowerBoundIsZero pLowerBounds = Except.ok false) :
    ∃ r body,
      Array_CreateInstance rt pTypeHnd rank pLengths pLowerBounds false th =
        (r, th.after
          (Event.LoadArrayTypeThrowing pTypeHnd (LoadArgs.explicit ELEMENT_TYPE_ARRAY rank) ::
            body)) ∧
      GuardedBody
        (fun e => ∃ T,
          rt.LoadArrayTypeThrowing pTypeHnd (LoadArgs.explicit ELEMENT_TYPE_ARRAY rank) =
            Except.ok T ∧ e.arrayType = some T) body := by
  cases hT : rt.LoadArrayTypeThrowing pTypeHnd (LoadArgs.explicit ELEMENT_TYPE_ARRAY rank) with
  | error e =>
    refine ⟨Except.error e, [], ?_, Or.inl rfl⟩
    by_cases hr : rank = 1
    · have hz1 := hz.resolve_left (not_not.2 hr)
      subst hr
      simp [Array_CreateInstance, bind, QCall.bind, liftExcept, pure, callLoader,
        Thread.after, h, hz1, hT]
    · simp [Array_CreateInstance, bind, QCall.bind, liftExcept, pure, callLoader,
        Thread.after, h, hr, hT]
  | ok T =>
    have hpre :
        Array_CreateInstance rt pTypeHnd rank pLengths pLowerBounds false th =
          (ASSERTE rt (decide (rank ≤ MAX_RANK)) >>= fun _ =>
            liftExcept (encodeBounds rt rank pLengths pLowerBounds).2 >>= fun bounds =>
              GCX_COOP
                (callAllocator
                  (Event.AllocateArrayEx T bounds.cells
                    (encodeBounds rt rank pLengths pLowerBounds).1)
                  (rt.AllocateArrayEx T bounds.cells
                    (encodeBounds rt rank pLengths pLowerBounds).1)))
            (th.after
              [Event.LoadArrayTypeThrowing pTypeHnd (LoadArgs.explicit ELEMENT_TYPE_ARRAY rank)]) := by
      by_cases hr : rank = 1
      · have hz1 := hz.resolve_left (not_not.2 hr)
        subst hr
        simp [Array_CreateInstance, bind, QCall.bind, liftExcept, pure, callLoader,
          Thread.after, h, hz1, hT]
      · simp [Array_CreateInstance, bind, QCall.bind, liftExcept, pure, callLoader,
          Thread.after, h, hr, hT]
    rw [hpre]
    rcases ASSERTE_cases rt (decide (rank ≤ MAX_RANK)) with a4 | a4
    case inr =>
      exact ⟨Except.error Exn.assertFailed, [], by
        simp [bind, QCall.bind, a4, COMPlusThrow], Or.inl rfl⟩
    obtain ⟨n, filled, hE⟩ :
        ∃ n filled, encodeBounds rt rank pLengths pLowerBounds = (n, filled) := ⟨_, _, rfl⟩
    cases filled with
    | error e =>
      exact ⟨Except.error e, [], by
        simp [bind, QCall.bind, pure, a4, hE, liftExcept], Or.inl rfl⟩
    | ok bounds =>
      exact ⟨rt.AllocateArrayEx T bounds.cells n,
        [Event.enterCoop, Event.AllocateArrayEx T bounds.cells n, Event.leaveCoop], by
        simp [bind, QCall.bind, pure, a4, hE, liftExcept, GCX_COOP, callAllocator,
          Thread.after],
        Or.inr (Or.inr ⟨Event.AllocateArrayEx T bounds.cells n, rfl, ⟨T, rfl, rfl⟩, rfl⟩)⟩


theorem Array_CreateInstanceMDArray_paths (rt : Runtime) (typeHandle : TypeHandle)
    (dwNumArgs : Nat) (pArgList : List Int) (th : Thread) :
    ∃ r body,
      Array_CreateInstanceMDArray rt typeHandle dwNumArgs pArgList th = (r, th.after body) ∧
      GuardedBody (fun e => e.arrayType = some typeHandle) body := by
  rcases ASSERTE_cases rt typeHandle.IsFullyLoaded with a1 | a1
  case inr =>
    exact ⟨Except.error Exn.assertFailed, [Event.enterCoop, Event.leaveCoop], by
      simp [Array_CreateInstanceMDArray, bind, QCall.bind, GCX_COOP, Thread.after, a1,
        COMPlusThrow], Or.inr (Or.inl rfl)⟩
  rcases ASSERTE_cases rt typeHandle.MethodTableIsArray with a2 | a2
  case inr =>
    exact ⟨Except.error Exn.assertFailed, [Event.enterCoop, Event.leaveCoop], by
      simp [Array_CreateInstanceMDArray, bind, QCall.bind, pure, GCX_COOP, Thread.after, a1, a2,
        COMPlusThrow], Or.inr (Or.inl rfl)⟩
  exact ⟨rt.AllocateArrayEx typeHandle pArgList dwNumArgs,
    [Event.enterCoop, Event.AllocateArrayEx typeHandle pArgList dwNumArgs, Event.leaveCoop], by
    simp [Array_CreateInstanceMDArray, bind, QCall.bind, pure, GCX_COOP, callAllocator,
      Thread.after, a1, a2],
    Or.inr (Or.inr ⟨Event.AllocateArrayEx typeHandle pArgList dwNumArgs, rfl, rfl, rfl⟩)⟩

theorem GuardedBody.scan_balanced {P : Event → Prop} {body : List Event}
    (h : GuardedBody P body) (depth : Nat) : scanCoop depth body = some depth := by
  rcases h with h | h | ⟨e, he, _, h⟩
  · subst h; simp [scanCoop]
  · subst h; simp [scanCoop]
  · subst h
    cases e <;> simp [Event.isAllocation] at he <;> simp [scanCoop]

theorem GuardedBody.no_resolution {P : Event → Prop} {body : List Event}
    (h : GuardedBody P body) : body.filter Event.isResolution = [] := by
  rcases h with h | h | ⟨e, he, _, h⟩
  · subst h; rfl
  · subst h; rfl
  · subst h
    cases e <;> simp [Event.isAllocation] at he <;> rfl

theorem GuardedBody.allocations {P : Event → Prop} {body : List Event}
    (h : GuardedBody P body) :
    (body.filter Event.isAllocation).length ≤ 1 ∧ ∀ e ∈ body.filter Event.isAllocation, P e := by
  rcases h with h | h | ⟨e, he, hP, h⟩
  · subst h; simp
  · subst h; simp [Event.isAllocation]
  · subst h
    have : [Event.enterCoop, e, Event.leaveCoop].filter Event.isAllocation = [e] := by
      cases e <;> simp [Event.isAllocation] at he <;> rfl
    rw [this]
    exact ⟨le_refl _, fun x hx => by simp at hx; subst hx; exact hP⟩


theorem GuardedBody.mono {P Q : Event → Prop} {body : List Event} (h : GuardedBody P body)
    (hPQ : ∀ e, P e → Q e) : GuardedBody Q body := by
  rcases h with h | h | ⟨e, he, hP, h⟩
  · exact Or.inl h
  · exact Or.inr (Or.inl h)
  · exact Or.inr (Or.inr ⟨e, he, hPQ e hP, h⟩)

theorem Array_CreateInstance_fromElementType_paths (rt : Runtime) (pTypeHnd : TypeHandle)
    (rank : Int) (pLengths : List Int) (pLowerBounds : Option (List Int)) (th : Thread) :
    ∃ r pre body,
      Array_CreateInstance rt pTypeHnd rank pLengths pLowerBounds false th =
        (r, th.after (pre ++ body)) ∧
      (pre = [] ∨ ∃ args, pre = [Event.LoadArrayTypeThrowing pTypeHnd args]) ∧
      GuardedBody (fun _ => True) body := by
  have hnil : th.after ([] ++ []) = th := by simp [Thread.after]
  cases hC : CheckElementType pTypeHnd with
  | error e =>
    exact ⟨Except.error e, [], [], by
      rw [hnil]
      exact Array_CreateInstance_rejected_path rt pTypeHnd rank pLengths pLowerBounds th e hC,
      Or.inl rfl, Or.inl rfl⟩
  | ok u =>
    have general : (rank ≠ 1 ∨ lowerBoundIsZero pLowerBounds = Except.ok false) →
        ∃ r pre body,
          Array_CreateInstance rt pTypeHnd rank pLengths pLowerBounds false th =
            (r, th.after (pre ++ body)) ∧
          (pre = [] ∨ ∃ args, pre = [Event.LoadArrayTypeThrowing pTypeHnd args]) ∧
          GuardedBody (fun _ => True) body := by
      intro hz
      obtain ⟨r, body, hrun, hbody⟩ :=
        Array_CreateInstance_general_paths rt pTypeHnd rank pLengths pLowerBounds th hC hz
      exact ⟨r, _, body, hrun, Or.inr ⟨_, rfl⟩, hbody.mono (fun _ _ => trivial)⟩
    by_cases hr : rank = 1
    · cases hz : lowerBoundIsZero pLowerBounds with
      | error e =>
        subst hr
        exact ⟨Except.error e, [], [], by
          rw [hnil]
          exact Array_CreateInstance_lowerBound_fault_path rt pTypeHnd pLengths pLowerBounds th
            e hC hz, Or.inl rfl, Or.inl rfl⟩
      | ok z =>
        cases z with
        | false => exact general (Or.inr hz)
        | true =>
          subst hr
          cases hprim : rt.IsPrimitiveType pTypeHnd.GetSignatureCorElementType with
          | true =>
            obtain ⟨r, body, hrun, hbody⟩ :=
              Array_CreateInstance_primitive_paths rt pTypeHnd pLengths pLowerBounds th hC hz
                hprim
            exact ⟨r, [], body, hrun, Or.inl rfl, hbody.mono (fun _ _ => trivial)⟩
          | false =>
            obtain ⟨r, body, hrun, hbody⟩ :=
              Array_CreateInstance_loaded_paths rt pTypeHnd pLengths pLowerBounds th hC hz hprim
            exact ⟨r, _, body, hrun, Or.inr ⟨_, rfl⟩, hbody.mono (fun _ _ => trivial)⟩
    · exact general (Or.inl hr)

theorem Array_CreateInstance_paths (rt : Runtime) (pTypeHnd : TypeHandle)
    (rank : Int) (pLengths : List Int) (pLowerBounds : Option (List Int))
    (createFromArrayType : Bool) (th : Thread) :
    ∃ r pre body,
      Array_CreateInstance rt pTypeHnd rank pLengths pLowerBounds createFromArrayType th =
        (r, th.after (pre ++ body)) ∧
      (pre = [] ∨ ∃ args, pre = [Event.LoadArrayTypeThrowing pTypeHnd args]) ∧
      GuardedBody (fun _ => True) body := by
  cases createFromArrayType with
  | false =>
    exact Array_CreateInstance_fromElementType_paths rt pTypeHnd rank pLengths pLowerBounds th
  | true =>
    obtain ⟨r, body, hrun, hbody⟩ :=
      Array_CreateInstance_fromArrayType_paths rt pTypeHnd rank pLengths pLowerBounds th
    exact ⟨r, [], body, hrun, Or.inl rfl, hbody.mono (fun _ _ => trivial)⟩

theorem scanCoop_after_resolution {P : Event → Prop} {pre body : List Event}
    (hpre : pre = [] ∨ ∃ t args, pre = [Event.LoadArrayTypeThrowing t args])
    (hbody : GuardedBody P body) : scanCoop 0 (pre ++ body) = some 0 := by
  rcases hpre with h | ⟨t, args, h⟩
  · subst h; exact hbody.scan_balanced 0
  · subst h
    show scanCoop 0 (Event.LoadArrayTypeThrowing t args :: body) = some 0
    rw [scanCoop]
    exact hbody.scan_balanced 0

/-! ## Cooperative mode around the allocators -/

/-- Claim C11. In every run of Array_CreateInstance and of Array_CreateInstanceMDArray,
whatever the loader and the allocators do (return or throw) and whichever way the run
ends (return, validation error, failed resolution, failed allocation, failed assertion
or fault), the thread ends in the mode it started in, no allocator was called while the
thread was not cooperative, and in the events of the run every allocator call lies
inside a GCX_COOP scope and every scope entered is left. -/
theorem entry_points_keep_mode_discipline (rt : Runtime) (pTypeHnd : TypeHandle) (rank : Int)
    (pLengths : List Int) (pLowerBounds : Option (List Int)) (createFromArrayType : Bool)
    (dwNumArgs : Nat) (pArgList : List Int) (th : Thread) :
    ((Array_CreateInstance rt pTypeHnd rank pLengths pLowerBounds createFromArrayType th).2.coop =
        th.coop ∧
      (Array_CreateInstance rt pTypeHnd rank pLengths pLowerBounds createFromArrayType
        th).2.allocsOutsideCoop = th.allocsOutsideCoop ∧
      scanCoop 0
        (eventsOf
          (Array_CreateInstance rt pTypeHnd rank pLengths pLowerBounds createFromArrayType) th) =
        some 0) ∧
    ((Array_CreateInstanceMDArray rt pTypeHnd dwNumArgs pArgList th).2.coop = th.coop ∧
      (Array_CreateInstanceMDArray rt pTypeHnd dwNumArgs pArgList th).2.allocsOutsideCoop =
        th.allocsOutsideCoop ∧
      scanCoop 0 (eventsOf (Array_CreateInstanceMDArray rt pTypeHnd dwNumArgs pArgList) th) =
        some 0) := by
  constructor
  · obtain ⟨r, pre, body, hrun, hpre, hbody⟩ :=
      Array_CreateInstance_paths rt pTypeHnd rank pLengths pLowerBounds createFromArrayType th
    rw [eventsOf_of_run _ _ r _ hrun, hrun]
    refine ⟨rfl, rfl, scanCoop_after_resolution ?_ hbody⟩
    rcases hpre with h | ⟨args, h⟩
    · exact Or.inl h
    · exact Or.inr ⟨_, _, h⟩
  · obtain ⟨r, body, hrun, hbody⟩ :=
      Array_CreateInstanceMDArray_paths rt pTypeHnd dwNumArgs pArgList th
    rw [eventsOf_of_run _ _ r _ hrun, hrun]
    exact ⟨rfl, rfl, hbody.scan_balanced 0⟩


theorem scanCoop_rejects (t : TypeHandle) :
    scanCoop 0 [Event.AllocateSzArray t 3] = none ∧
    scanCoop 0 [Event.enterCoop, Event.AllocateSzArray t 3] = some 1 ∧
    scanCoop 0 [Event.enterCoop, Event.leaveCoop, Event.AllocateSzArray t 3] = none := by
  simp [scanCoop]

/-! ## Resolutions of array types -/

theorem resolutions_of_run (rt : Runtime) (pTypeHnd : TypeHandle) (rank : Int)
    (pLengths : List Int) (pLowerBounds : Option (List Int)) (createFromArrayType : Bool)
    (th : Thread) (r : Except Exn OBJECTREF) (evs : List Event)
    (h : Array_CreateInstance rt pTypeHnd rank pLengths pLowerBounds createFromArrayType th =
      (r, th.after evs)) :
    resolutions rt pTypeHnd rank pLengths pLowerBounds createFromArrayType th =
        evs.filter Event.isResolution ∧
    allocationCalls rt pTypeHnd rank pLengths pLowerBounds createFromArrayType th =
        evs.filter Event.isAllocation := by
  unfold resolutions allocationCalls
  rw [eventsOf_of_run _ _ r _ h]
  exact ⟨rfl, rfl⟩

theorem resolved_run_events {P : Event → Prop} (load : Event) (body : List Event)
    (hload : load.isResolution = true) (hnot : load.isAllocation = false)
    (hbody : GuardedBody P body) :
    (load :: body).filter Event.isResolution = [load] ∧
    ((load :: body).filter Event.isAllocation).length ≤ 1 ∧
    ∀ e ∈ (load :: body).filter Event.isAllocation, P e := by
  have h1 : (load :: body).filter Event.isResolution = [load] := by
    rw [List.filter_cons_of_pos hload, hbody.no_resolution]
  have h2 : (load :: body).filter Event.isAllocation = body.filter Event.isAllocation := by
    rw [List.filter_cons_of_neg (by simp [hnot])]
  rw [h2]
  exact ⟨h1, hbody.allocations.1, hbody.allocations.2⟩

/-- Claim C13. For a request whose lower bounds are absent or `rank` of them,
Array_CreateInstance calls the loader at most once and an allocator at most once, and:
a from-array-type request never calls the loader, and an allocator it calls gets the
supplied descriptor; a from-element-type request that the validator accepts and that
takes the vector shortcut with a primitive element type never calls the loader; with
a non-primitive element type it calls the loader exactly once, for the vector type of
the element type, and an allocator it calls gets the type the loader returned; and an
accepted from-element-type request that does not take the shortcut calls the loader
exactly once, for (element type, ELEMENT_TYPE_ARRAY, rank), and an allocator it calls
gets the type the loader returned. -/
theorem Array_CreateInstance_resolves_at_most_once (rt : Runtime) (pTypeHnd : TypeHandle)
    (rank : Int) (pLengths : List Int) (pLowerBounds : Option (List Int))
    (createFromArrayType : Bool) (th : Thread)
    (hlb : ∀ lb, pLowerBounds = some lb → (lb.length : Int) = rank) :
    (resolutions rt pTypeHnd rank pLengths pLowerBounds createFromArrayType th).length ≤ 1 ∧
    (allocationCalls rt pTypeHnd rank pLengths pLowerBounds createFromArrayType th).length ≤ 1 ∧
    (createFromArrayType = true →
      resolutions rt pTypeHnd rank pLengths pLowerBounds createFromArrayType th = [] ∧
      ∀ e ∈ allocationCalls rt pTypeHnd rank pLengths pLowerBounds createFromArrayType th,
        e.arrayType = some pTypeHnd) ∧
    (createFromArrayType = false → ElementTypeValidator pTypeHnd = none →
      rank = 1 → AbsentOrZero pLowerBounds →
      rt.IsPrimitiveType pTypeHnd.GetSignatureCorElementType = true →
      resolutions rt pTypeHnd rank pLengths pLowerBounds createFromArrayType th = []) ∧
    (createFromArrayType = false → ElementTypeValidator pTypeHnd = none →
      rank = 1 → AbsentOrZero pLowerBounds →
      rt.IsPrimitiveType pTypeHnd.GetSignatureCorElementType = false →
      resolutions rt pTypeHnd rank pLengths pLowerBounds createFromArrayType th =
        [Event.LoadArrayTypeThrowing pTypeHnd LoadArgs.defaults] ∧
      ∀ e ∈ allocationCalls rt pTypeHnd rank pLengths pLowerBounds createFromArrayType th,
        ∃ T, rt.LoadArrayTypeThrowing pTypeHnd LoadArgs.defaults = Except.ok T ∧
          e.arrayType = some T) ∧
    (createFromArrayType = false → ElementTypeValidator pTypeHnd = none →
      ¬ (rank = 1 ∧ AbsentOrZero pLowerBounds) →
      resolutions rt pTypeHnd rank pLengths pLowerBounds createFromArrayType th =
        [Event.LoadArrayTypeThrowing pTypeHnd (LoadArgs.explicit ELEMENT_TYPE_ARRAY rank)] ∧
      ∀ e ∈ allocationCalls rt pTypeHnd rank pLengths pLowerBounds createFromArrayType th,
        ∃ T, rt.LoadArrayTypeThrowing pTypeHnd (LoadArgs.explicit ELEMENT_TYPE_ARRAY rank) =
            Except.ok T ∧ e.arrayType = some T) := by
  refine ⟨?_, ?_, ?_, ?_, ?_, ?_⟩
  · obtain ⟨r, pre, body, hrun, hpre, hbody⟩ :=
      Array_CreateInstance_paths rt pTypeHnd rank pLengths pLowerBounds createFromArrayType th
    rw [(resolutions_of_run _ _ _ _ _ _ _ _ _ hrun).1, List.filter_append,
      hbody.no_resolution, List.append_nil]
    rcases hpre with h | ⟨args, h⟩ <;> subst h <;> simp [Event.isResolution]
  · obtain ⟨r, pre, body, hrun, hpre, hbody⟩ :=
      Array_CreateInstance_paths rt pTypeHnd rank pLengths pLowerBounds createFromArrayType th
    rw [(resolutions_of_run _ _ _ _ _ _ _ _ _ hrun).2, List.filter_append]
    have hb := hbody.allocations.1
    rcases hpre with h | ⟨args, h⟩ <;> subst h <;> simpa [Event.isAllocation] using hb
  · intro hf
    subst hf
    obtain ⟨r, body, hrun, hbody⟩ :=
      Array_CreateInstance_fromArrayType_paths rt pTypeHnd rank pLengths pLowerBounds th
    rw [(resolutions_of_run _ _ _ _ _ _ _ _ _ hrun).1,
      (resolutions_of_run _ _ _ _ _ _ _ _ _ hrun).2]
    exact ⟨hbody.no_resolution, hbody.allocations.2⟩
  · intro hf hok hr hz hprim
    subst hf; subst hr
    obtain ⟨r, body, hrun, hbody⟩ :=
      Array_CreateInstance_primitive_paths rt pTypeHnd pLengths pLowerBounds th
        (CheckElementType_of_accepted hok) (lowerBoundIsZero_of_absentOrZero hz) hprim
    rw [(resolutions_of_run _ _ _ _ _ _ _ _ _ hrun).1]
    exact hbody.no_resolution
  · intro hf hok hr hz hprim
    subst hf; subst hr
    obtain ⟨r, body, hrun, hbody⟩ :=
      Array_CreateInstance_loaded_paths rt pTypeHnd pLengths pLowerBounds th
        (CheckElementType_of_accepted hok) (lowerBoundIsZero_of_absentOrZero hz) hprim
    rw [(resolutions_of_run _ _ _ _ _ _ _ _ _ hrun).1,
      (resolutions_of_run _ _ _ _ _ _ _ _ _ hrun).2]
    have h := resolved_run_events (Event.LoadArrayTypeThrowing pTypeHnd LoadArgs.defaults) body
      rfl rfl hbody
    exact ⟨h.1, h.2.2⟩
  · intro hf hok hne
    subst hf
    obtain ⟨r, body, hrun, hbody⟩ :=
      Array_CreateInstance_general_paths rt pTypeHnd rank pLengths pLowerBounds th
        (CheckElementType_of_accepted hok) (shortcut_not_taken rank pLowerBounds hlb hne)
    rw [(resolutions_of_run _ _ _ _ _ _ _ _ _ hrun).1,
      (resolutions_of_run _ _ _ _ _ _ _ _ _ hrun).2]
    have h := resolved_run_events
      (Event.LoadArrayTypeThrowing pTypeHnd (LoadArgs.explicit ELEMENT_TYPE_ARRAY rank)) body
      rfl rfl hbody
    exact ⟨h.1, h.2.2⟩


theorem Array_CreateInstance_resolves_at_most_once_witness :
    resolutions sampleRuntime (plainType 1 ELEMENT_TYPE_CLASS) 2 [2, 2] (some [1, 1]) false
        freshThread =
      [Event.LoadArrayTypeThrowing (plainType 1 ELEMENT_TYPE_CLASS)
        (LoadArgs.explicit ELEMENT_TYPE_ARRAY 2)] ∧
    ∀ e ∈ allocationCalls sampleRuntime (plainType 1 ELEMENT_TYPE_CLASS) 2 [2, 2]
        (some [1, 1]) false freshThread,
      ∃ T, sampleRuntime.LoadArrayTypeThrowing (plainType 1 ELEMENT_TYPE_CLASS)
          (LoadArgs.explicit ELEMENT_TYPE_ARRAY 2) = Except.ok T ∧ e.arrayType = some T :=
  (Array_CreateInstance_resolves_at_most_once sampleRuntime (plainType 1 ELEMENT_TYPE_CLASS) 2
    [2, 2] (some [1, 1]) false freshThread (fun lb h => by cases h; decide)).2.2.2.2.2 rfl
    (by decide) (fun h => absurd h.1 (by decide))

end ArrayNative
